import Mathlib

/-!
Verification of the emergency dispatch and routing system (Django application
`emergency_system`) against its natural-language specification.

The Python source is shallowly embedded: Django model rows become Lean
structures, the database becomes explicit lists of rows, model methods and
view helpers become pure functions on that state.  Machine floats are
modelled as exact rationals (`ℚ`), Python `None` as `Option`, Python
exceptions as `Except`.  External collaborators that the code only calls
through an interface (HTTP providers, the maths library trig used by the
haversine helpers, the compiled regular expressions, Python's Mersenne
Twister) are function parameters of the embedding, so every theorem is
quantified over their behaviour unless stated otherwise.
-/

/-! ## Python-semantics helpers -/

/-- Python `max(a, b)` on numbers. -/
def pyMax (a b : ℚ) : ℚ := if a ≤ b then b else a

/-- Python `min(a, b)` on numbers. -/
def pyMin (a b : ℚ) : ℚ := if a ≤ b then a else b

/-- Python `max(a, b)` on ints. -/
def pyMaxI (a b : ℤ) : ℤ := if a ≤ b then b else a

/-- Python `min(a, b)` on ints. -/
def pyMinI (a b : ℤ) : ℤ := if a ≤ b then a else b

/-- Python truthiness of an optional float: `None` and `0.0` are falsy. -/
def pyTruthyF : Option ℚ → Bool
  | none => false
  | some x => x != 0

/-- Python `a or b` on optional floats (`None`/`0.0` falls through to `b`). -/
def pyOrF (a b : Option ℚ) : Option ℚ := if pyTruthyF a then a else b

/-- Python `x or d` on a float already known to be non-`None`. -/
def pyOrQ (x d : ℚ) : ℚ := if x = 0 then d else x

/-- Whether `n` occurs as a contiguous sublist of the second list. -/
def subLst : List Char → List Char → Bool
  | n, [] => n.isEmpty
  | n, c :: t => n.isPrefixOf (c :: t) || subLst n t

/-- Python `needle in hay` on strings: substring containment. -/
def strContains (hay needle : String) : Bool := subLst needle.data hay.data

/-- Python `str.lower()` restricted to the alphabet the triage dictionaries
use: ASCII letters plus the Spanish accented letters appearing in the
source keyword tables. -/
def pyLowerChar (c : Char) : Char :=
  if 'A' ≤ c && c ≤ 'Z' then Char.ofNat (c.toNat + 32) else
  if c = 'Á' then 'á' else if c = 'É' then 'é' else if c = 'Í' then 'í' else
  if c = 'Ó' then 'ó' else if c = 'Ú' then 'ú' else if c = 'Ü' then 'ü' else
  if c = 'Ñ' then 'ñ' else c

/-- Replace every maximal whitespace run by a single space, as
`re.sub(r"[\s]+", " ", t)` does. -/
def collapseWs : List Char → List Char
  | [] => []
  | [c] => if c.isWhitespace then [' '] else [c]
  | c :: d :: t =>
    if c.isWhitespace && d.isWhitespace then collapseWs (d :: t)
    else (if c.isWhitespace then ' ' else c) :: collapseWs (d :: t)

/-- `ai._normalize_text`: lowercase then collapse whitespace. -/
def normalizeText (text : String) : String :=
  String.mk (collapseWs (text.data.map pyLowerChar))

/-! ## Triage rules layer (`core/ai.py`)

The six weighted phrase dictionaries, transcribed from the source in
order.  Weights are Python ints. -/

def SEVERE_KEYWORDS : List (String × ℤ) :=
  [("paro cardiaco", 60), ("paro cardiorrespiratorio", 60), ("pcr", 60),
   ("infarto", 55), ("inconsciente", 50), ("convulsion", 45),
   ("convulsión", 45), ("asfixia", 55), ("ahogo", 45),
   ("hemorragia masiva", 60), ("hemorragia", 50), ("quemaduras graves", 55),
   ("herido grave", 55), ("herida grave", 55), ("dolor de pecho", 45),
   ("no respira", 60), ("sin pulso", 60), ("overdosis", 50),
   ("explosion", 60), ("explosión", 60), ("derrumbe", 60),
   ("incendio masivo", 60), ("tiroteo", 60), ("arma de fuego", 55),
   ("apuñalado", 55), ("arma blanca", 50), ("balacera", 60),
   ("disparo", 55), ("tiros", 55),
   ("se esta quemando", 60), ("se está quemando", 60), ("se quema", 60),
   ("en llamas", 60), ("fuego", 50), ("humo denso", 45),
   ("olor a gas", 55), ("escape de gas", 60),
   ("asalto", 55), ("atraco", 55), ("secuestro", 60), ("violacion", 60),
   ("violación", 60), ("homicidio", 60), ("asesinato", 60)]

def MODERATE_KEYWORDS : List (String × ℤ) :=
  [("accidente", 30), ("choque", 30), ("colision", 35), ("colisión", 35),
   ("herido", 30), ("fractura", 35), ("luxacion", 25), ("luxación", 25),
   ("quemadura", 25), ("incendio", 40), ("caida", 20), ("caída", 20),
   ("intoxicacion", 30), ("intoxicación", 30), ("agresion", 30),
   ("agresión", 30), ("robo con violencia", 40), ("humo", 25),
   ("golpe", 25), ("pelea", 35), ("riña", 35), ("violencia", 40),
   ("robo", 40), ("robando", 40), ("roban", 40), ("hurto", 30),
   ("vandalismo", 25), ("daños", 30),
   ("transito", 30), ("tránsito", 30), ("trafico", 30), ("tráfico", 30),
   ("bloqueo", 30), ("corte", 30), ("manifestacion", 30),
   ("manifestación", 30), ("obstruccion", 30), ("obstrucción", 30),
   ("disturbio", 35), ("desorden", 30),
   ("desmayo", 25), ("mareo", 20), ("vomitos", 20), ("vómitos", 20),
   ("falta de aire", 30), ("dificultad respirar", 35)]

def MINOR_KEYWORDS : List (String × ℤ) :=
  [("dolor de cabeza", 5), ("cefalea", 5), ("fiebre", 5), ("resfriado", 5),
   ("gripe", 5), ("molestias", 10), ("ruido", 15), ("musica alta", 15),
   ("música alta", 15), ("problema menor", 10), ("consulta", 5)]

def VULNERABLE : List (String × ℤ) :=
  [("bebé", 15), ("bebe", 15), ("niño", 10), ("nino", 10), ("menor", 10),
   ("embarazada", 15), ("anciano", 10), ("adulto mayor", 10),
   ("discapacitado", 15), ("silla de ruedas", 15)]

def MULTIPLE : List (String × ℤ) :=
  [("múltiples", 15), ("multiples", 15), ("varios heridos", 20),
   ("muchas personas", 15), ("masivo", 20), ("multitudinario", 20)]

def LUGARES_SENSIBLES : List (String × ℤ) :=
  [("escuela", 15), ("colegio", 15), ("jardin", 15), ("jardín", 15),
   ("hospital", 10), ("clinica", 10), ("clínica", 10), ("estacion", 10),
   ("estación", 10), ("banco", 10), ("shopping", 15), ("estadio", 20),
   ("plaza", 10), ("subte", 15), ("tren", 15), ("aeropuerto", 20)]

/-- The four compiled regex groups of `ai.py` (`MEDICAL_PATTERNS`,
`FIRE_PATTERNS`, `POLICE_PATTERNS`, `TRAFFIC_PATTERNS`), abstracted as
predicates on the normalized text: each field is `_matches_pattern`
applied to the corresponding group. -/
structure TriagePatterns where
  medical : String → Bool
  fire : String → Bool
  police : String → Bool
  traffic : String → Bool

/-- One pass of `apply_dict`: returns the score increment and the reason
lines contributed by a dictionary.  The source formats each reason as the
label, the matched key in quotes and the weight; the quotes are left out
here and the weight is rendered in plain decimal. -/
def applyDict (txt : String) (dic : List (String × ℤ)) (label : String) :
    ℤ × List String :=
  dic.foldl
    (fun acc kw =>
      if strContains txt kw.1 then
        (acc.1 + kw.2, acc.2 ++ [label ++ ": " ++ kw.1 ++ " (+" ++ toString kw.2 ++ ")"])
      else acc)
    (0, [])

/-- `ai.analyze_description`: returns `(score, reasons, tipo_sugerido)`. -/
def analyzeDescription (pats : TriagePatterns) (text : String) :
    ℤ × List String × String :=
  if text = "" then (0, (["Sin descripción"], "policial"))
  else
    let txt := normalizeText text
    let r1 := applyDict txt SEVERE_KEYWORDS "Severidad alta"
    let r2 := applyDict txt MODERATE_KEYWORDS "Severidad media"
    let r3 := applyDict txt MINOR_KEYWORDS "Leve"
    let r4 := applyDict txt VULNERABLE "Vulnerable"
    let r5 := applyDict txt MULTIPLE "Multiplicidad"
    let r6 := applyDict txt LUGARES_SENSIBLES "Lugar sensible"
    let score0 := r1.1 + r2.1 + r3.1 + r4.1 + r5.1 + r6.1
    let reasons0 := r1.2 ++ r2.2 ++ r3.2 ++ r4.2 ++ r5.2 ++ r6.2
    let tr :=
      if pats.medical txt then (("medico", reasons0 ++ ["Patrón médico detectado"]) : String × List String)
      else if pats.fire txt then ("bomberos", reasons0 ++ ["Patrón de bomberos detectado"])
      else if pats.traffic txt then
        (if score0 > 40 then "bomberos" else "policial",
         reasons0 ++ ["Patrón de tránsito detectado"])
      else if pats.police txt then ("policial", reasons0 ++ ["Patrón policial detectado"])
      else ("policial", reasons0)
    let score := pyMaxI 1 (pyMinI 100 score0)
    let reasons :=
      if score = 1 ∧ tr.2 = [] then ["Sin coincidencias relevantes: caso leve por defecto"]
      else tr.2
    (score, (reasons, tr.1))

/-- `ai.classify_emergency`: `(code, score, reasons, tipo)` with the
thresholds `score ≥ 60 → rojo`, `score ≥ 25 → amarillo`, else `verde`. -/
def classifyEmergency (pats : TriagePatterns) (text : String) :
    String × ℤ × List String × String :=
  let a := analyzeDescription pats text
  let code := if a.1 ≥ 60 then "rojo" else if a.1 ≥ 25 then "amarillo" else "verde"
  (code, (a.1, a.2))

/-- Result dictionary of `ai.get_ai_classification_with_response`.  The
`respuesta_ia` narrative produced by `generate_ia_response` only assembles
text via `random.choice` and is abstracted as a parameter below. -/
structure LocalClassification where
  tipo : String
  codigo : String
  score : ℤ
  razones : List String
  respuestaIa : String
  deriving DecidableEq, Repr

/-- `ai.get_ai_classification_with_response`.  `narr` abstracts
`generate_ia_response` (pure text assembly from a random template). -/
def getAiClassificationWithResponse (pats : TriagePatterns)
    (narr : String → String) (description : String) : LocalClassification :=
  if description = "" then
    { tipo := "policial", codigo := "verde", score := 1,
      razones := ["Sin descripción proporcionada"],
      respuestaIa := "No se puede clasificar sin descripción del evento." }
  else
    let c := classifyEmergency pats description
    { tipo := c.2.2.2, codigo := c.1, score := c.2.1, razones := c.2.2.1,
      respuestaIa := narr description }

-- Sanity: the exact empty-description dictionary of the source.
example : (getAiClassificationWithResponse ⟨fun _ => false, fun _ => false, fun _ => false, fun _ => false⟩ (fun _ => "") "").score = 1 := by decide

/-! ## Cloud triage layer (`core/llm.py`)

HTTP traffic is abstracted: the outcome of the provider call chain
(`_call_openai` / `_call_ollama` retries) is a parameter.  JSON payloads
are typed according to the schema the code reads them with: fields the
code accesses via `.get` become `Option`. -/

/-- Python `s or d` for an optional string (`None` and `""` falsy). -/
def pyOrS (a : Option String) (d : String) : String :=
  match a with
  | none => d
  | some s => if s = "" then d else s

/-- Python `n or d` for an optional int (`None` and `0` falsy). -/
def pyOrI (a : Option ℤ) (d : ℤ) : ℤ :=
  match a with
  | none => d
  | some n => if n = 0 then d else n

/-- Python `str.strip()` restricted to whitespace. -/
def pyStrip (s : String) : String :=
  String.mk (((s.data.dropWhile Char.isWhitespace).reverse.dropWhile Char.isWhitespace).reverse)

/-- One entry of the `recursos` array of a parsed provider response. -/
structure RawRecurso where
  tipo : Option String
  cantidad : Option ℤ
  detalle : Option String
  deriving DecidableEq, Repr

/-- A provider response parsed by `_parse_json_content`, typed per the
JSON schema the code expects (`score` is `None` whenever `int(score)`
would not convert). -/
structure RawResult where
  tipo : Option String
  codigo : Option String
  score : Option ℤ
  razones : List String
  respuestaIa : Option String
  recursos : List RawRecurso
  deriving DecidableEq, Repr

/-- A normalized `recursos` entry. -/
structure Recurso where
  tipo : String
  cantidad : ℤ
  detalle : Option String
  deriving DecidableEq, Repr

/-- The dictionary `classify_with_ai` returns. -/
structure Classification where
  tipo : String
  codigo : String
  score : Option ℤ
  razones : List String
  respuestaIa : String
  recursos : List Recurso
  fuente : String
  deriving DecidableEq, Repr

/-- `llm._normalize_result`. -/
def normalizeResult (result : RawResult) (fuente : String) : Classification :=
  let tipo := String.mk ((pyStrip (pyOrS result.tipo "policial")).data.map pyLowerChar)
  let codigo := String.mk ((pyStrip (pyOrS result.codigo "verde")).data.map pyLowerChar)
  let recursosF := result.recursos.foldl
    (fun acc item =>
      match item.tipo with
      | none => acc
      | some t => if t = "" then acc else
          acc ++ [{ tipo := pyStrip t, cantidad := pyOrI item.cantidad 1,
                    detalle := item.detalle }])
    []
  { tipo := tipo, codigo := codigo, score := result.score,
    razones := result.razones,
    respuestaIa := pyOrS result.respuestaIa "Clasificación completada por IA.",
    recursos := recursosF, fuente := fuente }

/-- Provider selection and credential configuration (`settings`). -/
structure AIConfig where
  provider : String
  openaiKey : Bool
  ollamaUrl : Bool

/-- A Python exception value (only its message is modelled). -/
abbrev PyExc : Type := String

/-- `CloudAIClient.classify`.  `net` is the outcome of the retry loop of
the selected provider when an HTTP call chain actually runs: `.error` if
an exception escaped it, `.ok none` if every attempt failed or returned
unparseable content, `.ok (some r)` for a parsed response.  Empty
description, unsupported provider and absent credentials return `None`
without any call, as in the source. -/
def cloudClassify (cfg : AIConfig) (net : Except PyExc (Option RawResult))
    (description : String) : Except PyExc (Option RawResult) :=
  if description = "" then .ok none
  else if cfg.provider = "openai" then
    (if cfg.openaiKey then net else .ok none)
  else if cfg.provider = "ollama" then
    (if cfg.ollamaUrl then net else .ok none)
  else .ok none

/-- The fallback branch of `llm.classify_with_ai`: the rules-layer result
with `fuente = 'local'` and the `recursos` keys defaulted. -/
def localFallback (pats : TriagePatterns) (narr : String → String)
    (description : String) : Classification :=
  let fb := getAiClassificationWithResponse pats narr description
  { tipo := fb.tipo, codigo := fb.codigo, score := some fb.score,
    razones := fb.razones, respuestaIa := fb.respuestaIa,
    recursos := [], fuente := "local" }

/-- `llm.classify_with_ai`.  The whole cloud attempt sits inside
`try ... except Exception`, so a raising provider call falls through to
the local rules layer; the function itself can only return normally,
which the `Except` codomain makes explicit. -/
def classifyWithAi (pats : TriagePatterns) (narr : String → String)
    (cfg : AIConfig) (net : Except PyExc (Option RawResult))
    (description : String) : Except PyExc Classification :=
  match cloudClassify cfg net description with
  | .ok (some raw) => .ok (normalizeResult raw cfg.provider)
  | .ok none => .ok (localFallback pats narr description)
  | .error _ => .ok (localFallback pats narr description)

/-! ## Persistent entities (`core/models.py`) -/

/-- A GeoJSON geometry as stored in `route_geometry` / closure rows:
a `type` tag and a list of `(lon, lat)` coordinate pairs. -/
structure Geometry where
  typ : String
  coordinates : List (ℚ × ℚ)
  deriving DecidableEq, Repr

/-- An `Emergency` row. -/
structure Emergency where
  id : ℕ
  code : String
  priority : ℤ
  description : String
  address : String
  locationLat : Option ℚ
  locationLon : Option ℚ
  status : String
  assignedForce : Option ℕ
  assignedVehicle : Option ℕ
  ondaVerde : Bool
  reportedAt : ℚ
  resolvedAt : Option ℚ
  resolutionNotes : String
  aiResponse : String
  deriving DecidableEq, Repr

/-- A `Vehicle` row. -/
structure Vehicle where
  id : ℕ
  forceId : ℕ
  typ : String
  currentLat : Option ℚ
  currentLon : Option ℚ
  targetLat : Option ℚ
  targetLon : Option ℚ
  homeFacility : Option ℕ
  status : String
  deriving DecidableEq, Repr

/-- An `Agent` row. -/
structure Agent where
  id : ℕ
  name : String
  forceId : ℕ
  role : String
  status : String
  assignedVehicle : Option ℕ
  lat : Option ℚ
  lon : Option ℚ
  targetLat : Option ℚ
  targetLon : Option ℚ
  deriving DecidableEq, Repr

/-- An `EmergencyDispatch` row. -/
structure EmergencyDispatch where
  id : ℕ
  emergencyId : ℕ
  forceId : ℕ
  vehicleId : Option ℕ
  agentId : Option ℕ
  status : String
  createdAt : ℚ
  deriving DecidableEq, Repr

/-- A `CalculatedRoute` row.  `routeGeometry = none` models a null/empty
(falsy) stored geometry. -/
structure CalculatedRoute where
  emergencyId : ℕ
  resourceId : String
  resourceType : String
  distanceKm : ℚ
  estimatedTimeMinutes : ℚ
  priorityScore : ℚ
  routeGeometry : Option Geometry
  status : String
  calculatedAt : ℚ
  completedAt : Option ℚ
  deriving DecidableEq, Repr

/-- The relational state the claims touch. -/
structure DB where
  emergencies : List Emergency
  vehicles : List Vehicle
  agents : List Agent
  dispatches : List EmergencyDispatch
  routes : List CalculatedRoute
  deriving DecidableEq, Repr

/-- `Emergency.save`, the in-memory normalization the override performs
before writing: classify only when `code` is blank, then derive
`priority` and `onda_verde` from the code.  `classify` abstracts
`self.classify_code()`, which may update the entity (assigned force,
resolution notes) and returns the code string. -/
def emergencySave (classify : Emergency → Emergency × String)
    (e0 : Emergency) : Emergency :=
  let e := if e0.code = "" then
      (let p := classify e0; { p.1 with code := p.2 })
    else e0
  if e.code = "rojo" then { e with ondaVerde := true, priority := 10 }
  else if e.code = "amarillo" then { e with priority := 5 }
  else { e with priority := 1 }

/-- `Emergency._infer_required_forces`: the set of force names the
description's keywords demand.  The source builds a Python `set`; only
its membership is observable downstream (every member gets a dispatch,
`created_any` is a disjunction over the loop, and the primary-summary
loop iterates a fixed priority list), so the set is rendered as a list
in a fixed order with exactly the source's membership. -/
def inferRequiredForces (e : Emergency) : List String :=
  let descLower := String.mk (e.description.data.map pyLowerChar)
  let fuego := ["incendio", "fuego", "humo", "llamas", "se quema",
    "se está quemando", "se esta quemando"].any
    (fun k => strContains descLower k)
  let transito := ["choque", "accidente", "colisión", "colision"].any
    (fun k => strContains descLower k)
  let medica := ["herido", "médico", "medico", "salud", "infarto",
    "inconsciente", "convulsión", "convulsion", "asfixia", "ahogo",
    "hemorragia", "atragant", "atragantamiento", "atragantado",
    "obstrucción de vía aérea", "obstruccion de via aerea"].any
    (fun k => strContains descLower k)
  let seguridad := ["robo", "robando", "roban", "crimen", "disturbio",
    "corte", "bloqueo", "manifestación", "manifestacion", "asalto",
    "atraco", "rehen"].any (fun k => strContains descLower k)
  let req :=
    (if fuego then ["Bomberos"] else []) ++
    (if transito || seguridad then ["Policía"] else []) ++
    (if transito then ["Tránsito"] else []) ++
    (if transito || medica then ["SAME"] else [])
  if req.isEmpty then ["Policía"] else req

/-- One iteration of the dispatch-creation loop of
`Emergency.ensure_multi_dispatch`: `get_or_create` on
`(emergency, force)` appends a new `despachado` row with the best
available vehicle and agent only when no row for that pair exists, and
`created_any` records whether any iteration created one.  `forceIdOf`
abstracts `Force.objects.get_or_create` (the stable name-to-pk map);
`bestVehicle` and `bestAgent` abstract
`_find_best_available_vehicle`and `_find_best_available_agent`, whose
ETA comparisons call the external route optimizer.  The row's auto
primary key and the `en_ruta`/target writes onto the chosen vehicle and
agent rows are not modelled: no claim reads them. -/
def dispatchStep (forceIdOf : String → ℕ)
    (bestVehicle bestAgent : String → Option ℕ) (eid : ℕ) (now : ℚ)
    (acc : List EmergencyDispatch × Bool) (name : String) :
    List EmergencyDispatch × Bool :=
  let fid := forceIdOf name
  if acc.1.any (fun d => decide (d.emergencyId = eid ∧ d.forceId = fid)) then
    acc
  else
    (acc.1 ++
      [{ id := acc.1.length, emergencyId := eid, forceId := fid,
         vehicleId := bestVehicle name, agentId := bestAgent name,
         status := "despachado", createdAt := now }],
      true)

/-- The primary-summary tail of `Emergency.ensure_multi_dispatch`: when
no `assigned_force` is set, the first dispatch of this emergency found
in the fixed priority order Bomberos, SAME, Policía, Tránsito fills
`assigned_force` and `assigned_vehicle`. -/
def dispatchPrimarySummary (forceIdOf : String → ℕ)
    (rows : List EmergencyDispatch) (e : Emergency) : Emergency :=
  if e.assignedForce = none then
    match ["Bomberos", "SAME", "Policía", "Tránsito"].findSome?
        (fun n => rows.find?
          (fun d => decide (d.emergencyId = e.id ∧ d.forceId = forceIdOf n))) with
    | some d =>
      { e with assignedForce := some d.forceId,
               assignedVehicle := d.vehicleId }
    | none => e
  else e

/-- `Emergency.ensure_multi_dispatch`: create a dispatch per required
force, flip a `pendiente` incident to `asignada` when any was created
(the nested `save(update_fields=['status'])` re-runs the same code
normalization with the code unchanged and persists only the status),
then fill the primary summary.  Returns the updated emergency row and
dispatch table. -/
def ensureMultiDispatch (forceIdOf : String → ℕ)
    (bestVehicle bestAgent : String → Option ℕ) (now : ℚ)
    (dispatches : List EmergencyDispatch) (e : Emergency) :
    Emergency × List EmergencyDispatch :=
  let res := (inferRequiredForces e).foldl
    (dispatchStep forceIdOf bestVehicle bestAgent e.id now) (dispatches, false)
  let e1 := if res.2 ∧ e.status = "pendiente" then
      { e with status := "asignada" }
    else e
  (dispatchPrimarySummary forceIdOf res.1 e1, res.1)

/-- `Emergency.save` in full: the in-memory normalization
(`emergencySave`) followed by the post-persist branch of the override —
on a new instance (`self.pk is None` on entry) whose code ends up red
or yellow, `process_ia` runs `ensure_multi_dispatch`. -/
def emergencySaveFull (classify : Emergency → Emergency × String)
    (forceIdOf : String → ℕ) (bestVehicle bestAgent : String → Option ℕ)
    (now : ℚ) (newInstance : Bool) (dispatches : List EmergencyDispatch)
    (e0 : Emergency) : Emergency × List EmergencyDispatch :=
  let e := emergencySave classify e0
  if newInstance ∧ (e.code = "rojo" ∨ e.code = "amarillo") then
    ensureMultiDispatch forceIdOf bestVehicle bestAgent now dispatches e
  else (e, dispatches)

/-- `Emergency.resolve` as a transactional update of the database.
`now` is the `timezone.now()` stored in `resolved_at`; `nowR` the second
`now()` used for `completed_at` of the active routes.  The final
`self.save(update_fields=['status','resolved_at','resolution_notes'])`
persists exactly those three fields. -/
def emergencyResolve (db : DB) (eid : ℕ) (now nowR : ℚ) (notes : String) : DB :=
  let dispatchesOfE := db.dispatches.filter (fun d => d.emergencyId = eid)
  let vehIds := dispatchesOfE.filterMap (fun d => d.vehicleId)
  let agIds := dispatchesOfE.filterMap (fun d => d.agentId)
  { db with
    vehicles := db.vehicles.map (fun v =>
      if vehIds.contains v.id then { v with status := "disponible" } else v),
    agents := db.agents.map (fun a =>
      if agIds.contains a.id then { a with status := "disponible" } else a),
    dispatches := db.dispatches.map (fun d =>
      if d.emergencyId = eid then { d with status := "finalizado" } else d),
    routes := db.routes.map (fun r =>
      if r.emergencyId = eid ∧ r.status = "activa" then
        { r with status := "completada", completedAt := some nowR }
      else r),
    emergencies := db.emergencies.map (fun e =>
      if e.id = eid then
        { e with
          status := "resuelta",
          resolvedAt := some now,
          resolutionNotes :=
            if notes ≠ "" then e.resolutionNotes ++ "\nResolución: " ++ notes
            else e.resolutionNotes }
      else e) }

/-! ## Tracking helpers (`core/views.py`)

`_haversine_km` calls `math` trig; it is abstracted as a distance
function parameter `hav` wherever consumed.  Python's seeded Mersenne
Twister is abstracted as `prng : String → ℕ → ℚ`, giving the `n`-th raw
`random()` draw (a value in `[0,1)`) of a generator seeded with the given
string; `random.Random(seed).uniform(a, b)` is then `a + (b-a) · draw`. -/

/-- `random.uniform(a, b)` given the raw draw `u ∈ [0,1)`. -/
def pyUniform (u a b : ℚ) : ℚ := a + (b - a) * u

/-- Python 3 `round(x)`: round half to even. -/
def pyRoundInt (x : ℚ) : ℤ :=
  let f := Int.floor x
  let r := x - f
  if r < 1/2 then f
  else if 1/2 < r then f + 1
  else if f % 2 = 0 then f else f + 1

/-- Python 3 `round(x, n)` over exact rationals. -/
def pyRound (x : ℚ) (n : ℕ) : ℚ := (pyRoundInt (x * 10 ^ n) : ℚ) / 10 ^ n

/-- Python `int(x)`: truncation toward zero. -/
def pyInt (x : ℚ) : ℤ := if 0 ≤ x then Int.floor x else -(Int.floor (-x))

/-- `views._determine_traffic_factor`. -/
def determineTrafficFactor (prng : String → ℕ → ℚ) (hour : ℕ)
    (r : CalculatedRoute) (e : Emergency) : ℚ :=
  let seed := r.resourceId ++ "-" ++ toString r.emergencyId
  let base := pyUniform (prng seed 0) (85/100) (135/100)
  let base := if (7 ≤ hour ∧ hour ≤ 10) ∨ (17 ≤ hour ∧ hour ≤ 20) then
      base * pyUniform (prng seed 1) (105/100) (125/100)
    else base
  let base := if e.code = "rojo" then
      (if e.ondaVerde then base * (6/10) else base * (85/100))
    else base
  pyMax (45/100) (pyMin base (175/100))

/-- `views._traffic_level_metadata`: `(level, label, color)`. -/
def trafficLevelMetadata (factor : ℚ) : String × String × String :=
  if factor ≤ 7/10 then ("libre", "Tráfico libre", "#22c55e")
  else if factor ≤ 1 then ("moderado", "Tráfico moderado", "#f59e0b")
  else ("congestionado", "Tráfico congestionado", "#dc2626")

/-- Consecutive pairs of a list. -/
def consecPairs : List α → List (α × α)
  | a :: b :: t => (a, b) :: consecPairs (b :: t)
  | _ => []

/-- Segment walk of `_interpolate_route_point`: find the segment where the
covered length reaches the target and interpolate inside it; past the end
return the final point. -/
def walkSegs : List (ℚ × (ℚ × ℚ) × (ℚ × ℚ)) → ℚ → ℚ → (ℚ × ℚ) → ℚ × ℚ
  | [], _, _, lastP => lastP
  | (seg, s, en) :: t, target, covered, lastP =>
    if covered + seg ≥ target then
      let remaining := target - covered
      let ratio := if seg = 0 then 0 else remaining / seg
      (s.1 + (en.1 - s.1) * ratio, s.2 + (en.2 - s.2) * ratio)
    else walkSegs t target (covered + seg) lastP

/-- `views._interpolate_route_point`.  Returns a `(lat, lon)` point, or
`none` for a falsy geometry or an empty coordinate list. -/
def interpolateRoutePoint (hav : (ℚ × ℚ) → (ℚ × ℚ) → ℚ)
    (g : Option Geometry) (progress : ℚ) : Option (ℚ × ℚ) :=
  match g with
  | none => none
  | some geo =>
    let latlonPoints := geo.coordinates.map (fun c => (c.2, c.1))
    match latlonPoints with
    | [] => none
    | [p] => some p
    | _ =>
      let dists := (consecPairs latlonPoints).map (fun pr => (hav pr.1 pr.2, pr.1, pr.2))
      let totalDistance := (dists.map (fun d => d.1)).sum
      -- the list is non-empty here, so the `getLastD` default is never used
      if totalDistance = 0 then some (latlonPoints.getLastD (0, 0))
      else
        let target := totalDistance * pyMax 0 (pyMin 1 progress)
        some (walkSegs dists target 0 (latlonPoints.getLastD (0, 0)))

/-- One snapshot entry produced by `views._build_vehicle_tracking`
(`route_geometry`, name and colour metadata omitted from the payload
model where no claim reads them). -/
structure TrackingEntry where
  entryId : String
  currentPosition : ℚ × ℚ
  targetPosition : Option ℚ × Option ℚ
  etaMinutes : ℚ
  distanceRemainingKm : ℚ
  routeGeometry : Option Geometry
  status : String
  progress : ℚ
  speedKmh : ℚ
  trafficLevel : String
  isCodeRed : Bool
  emergencyId : ℕ
  ondaVerde : Bool
  deriving DecidableEq, Repr

/-- `views._build_vehicle_tracking` for a dispatch with its vehicle,
emergency and route rows present (the source returns `None` otherwise).
The result is `none` exactly on the path where the vehicle and the
emergency both lack coordinates and the geometry is missing, where the
source would raise `TypeError` in `round(None, 6)`. -/
def buildVehicleTracking (hav : (ℚ × ℚ) → (ℚ × ℚ) → ℚ)
    (prng : String → ℕ → ℚ) (hour : ℕ) (now : ℚ)
    (v : Vehicle) (e : Emergency) (r : CalculatedRoute) : Option TrackingEntry :=
  let totalSeconds := pyMax (pyOrQ r.estimatedTimeMinutes 1 * 60) 60
  let trafficFactor := determineTrafficFactor prng hour r e
  let adjustedTotal := totalSeconds * trafficFactor
  let elapsed := pyMax 0 (now - r.calculatedAt)
  let progress := pyMin 1 (elapsed / adjustedTotal)
  let interpolated := interpolateRoutePoint hav r.routeGeometry progress
  let point? := match interpolated with
    | some p => some p
    | none =>
      match pyOrF v.currentLat e.locationLat, pyOrF v.currentLon e.locationLon with
      | some la, some lo => some (la, lo)
      | _, _ => none
  match point? with
  | none => none
  | some point =>
    let remainingDistanceKm := pyMax (pyOrQ r.distanceKm 0 * (1 - progress)) 0
    let baseSpeed := pyOrQ r.distanceKm 0 / pyMax (pyOrQ (r.estimatedTimeMinutes / 60) (1/10)) (1/10)
    let speedKmh := baseSpeed / pyMax trafficFactor (1/10)
    let etaRemaining := pyMax 0 (adjustedTotal - elapsed) / 60
    some
      { entryId := "vehicle_" ++ toString v.id,
        currentPosition := (pyRound point.1 6, pyRound point.2 6),
        targetPosition := (e.locationLat, e.locationLon),
        etaMinutes := pyRound etaRemaining 1,
        distanceRemainingKm := pyRound remainingDistanceKm 2,
        routeGeometry := r.routeGeometry,
        status := if progress < 1 then "en_ruta" else "en_escena",
        progress := pyRound progress 3,
        speedKmh := pyRound speedKmh 1,
        trafficLevel := (trafficLevelMetadata trafficFactor).1,
        isCodeRed := e.code = "rojo",
        emergencyId := e.id,
        ondaVerde := e.ondaVerde }

/-- The per-route progress computed by `views.emergency_mobility_api`:
`1.0` when the emergency is resolved (frozen), otherwise elapsed time
over the traffic-adjusted total, clamped to 1. -/
def mobilitySnapshotProgress (prng : String → ℕ → ℚ) (hour : ℕ) (now : ℚ)
    (e : Emergency) (r : CalculatedRoute) : ℚ :=
  let frozen := e.status = "resuelta"
  let estMinutes := pyOrQ r.estimatedTimeMinutes 0
  let totalSeconds := pyMaxI (pyInt (estMinutes * 60)) 60
  let trafficFactor := determineTrafficFactor prng hour r e
  let adjustedTotal := (totalSeconds : ℚ) * trafficFactor
  let elapsed := now - r.calculatedAt
  if frozen then 1
  else pyMin 1 (if adjustedTotal > 0 then elapsed / adjustedTotal else 0)

/-! ## Route persistence (`views._persist_routes_for_emergency`) -/

/-- The normalized route dictionary produced by
`RouteOptimizer.get_best_route` (the `route`/`steps` entries carry raw
provider payload no claim reads and are omitted). -/
structure RouteInfo where
  provider : String
  geometry : Option Geometry
  distance : Option ℚ
  duration : Option ℚ
  originalDuration : Option ℚ := none
  congestionFactor : Option ℚ := none
  trafficAdjusted : Bool := false
  intersectsClosures : Bool := false
  closuresWarning : List ℕ := []
  closuresAvoided : List ℕ := []
  deriving DecidableEq, Repr

/-- One entry of the planner output consumed by
`_persist_routes_for_emergency` (`assignment['resource']` flattened to
the fields the function reads). -/
structure Assignment where
  resourceId : Option String
  resourceName : String
  distanceKm : ℚ
  estimatedArrival : ℚ
  priorityScore : ℚ
  geometry : Option Geometry
  deriving Repr

/-- First loop of `_persist_routes_for_emergency`: persist the first
`max_routes` assignments, skipping entries with a falsy resource id and
ids already persisted.  Returns the persisted ids and the created rows. -/
def persistAssignmentsLoop (eid : ℕ) (calcAt : ℚ) :
    List Assignment → List String → List CalculatedRoute →
    List String × List CalculatedRoute
  | [], ids, acc => (ids, acc)
  | a :: t, ids, acc =>
    match a.resourceId with
    | none => persistAssignmentsLoop eid calcAt t ids acc
    | some rid =>
      if rid = "" ∨ rid ∈ ids then persistAssignmentsLoop eid calcAt t ids acc
      else
        persistAssignmentsLoop eid calcAt t (ids ++ [rid])
          (acc ++ [{ emergencyId := eid, resourceId := rid,
                     resourceType := a.resourceName,
                     distanceKm := a.distanceKm,
                     estimatedTimeMinutes := a.estimatedArrival,
                     priorityScore := a.priorityScore,
                     routeGeometry := a.geometry,
                     status := "activa", calculatedAt := calcAt,
                     completedAt := none }])

/-- Second loop of `_persist_routes_for_emergency` (dispatch coverage):
for every dispatch vehicle with known coordinates whose id is not yet
persisted, compute a fresh route (`routeFor` abstracts
`optimizer.get_best_route`) and persist it. -/
def persistDispatchLoop (routeFor : Vehicle → RouteInfo)
    (forceNameOf : ℕ → String) (eid : ℕ) (calcAt : ℚ) :
    List (Option Vehicle) → List String → List CalculatedRoute →
    List CalculatedRoute
  | [], _, acc => acc
  | none :: t, ids, acc => persistDispatchLoop routeFor forceNameOf eid calcAt t ids acc
  | some v :: t, ids, acc =>
    if v.currentLat = none ∨ v.currentLon = none then
      persistDispatchLoop routeFor forceNameOf eid calcAt t ids acc
    else
      let rid := "vehicle_" ++ toString v.id
      if rid ∈ ids then persistDispatchLoop routeFor forceNameOf eid calcAt t ids acc
      else
        let ri := routeFor v
        let distanceM := ri.distance.getD 0
        let durationS := ri.duration.getD 0
        let distanceKm := if distanceM ≠ 0 then distanceM / 1000 else 0
        let etaMinutes := if durationS ≠ 0 then durationS / 60 else 0
        let priorityScore :=
          if durationS ≠ 0 then durationS else if distanceM ≠ 0 then distanceM else 999
        persistDispatchLoop routeFor forceNameOf eid calcAt t (ids ++ [rid])
          (acc ++ [{ emergencyId := eid, resourceId := rid,
                     resourceType := v.typ ++ " - " ++ forceNameOf v.forceId,
                     distanceKm := distanceKm,
                     estimatedTimeMinutes := etaMinutes,
                     priorityScore := priorityScore,
                     routeGeometry := ri.geometry,
                     status := "activa", calculatedAt := calcAt,
                     completedAt := none }])

/-- Look up a vehicle row by id. -/
def findVehicle (db : DB) (vid : ℕ) : Option Vehicle :=
  db.vehicles.find? (fun v => v.id = vid)

/-- The vehicles of the emergency's dispatches, in dispatch order. -/
def dispatchVehicles (db : DB) (eid : ℕ) : List (Option Vehicle) :=
  (db.dispatches.filter (fun d => d.emergencyId = eid)).map
    (fun d => d.vehicleId.bind (findVehicle db))

/-- The rows `_persist_routes_for_emergency` creates: the persisted
assignments followed by the dispatch-coverage rows. -/
def persistNewRoutes (db : DB) (e : Emergency) (assignments : List Assignment)
    (includeDispatches : Bool) (maxRoutes : ℕ)
    (routeFor : Vehicle → RouteInfo) (forceNameOf : ℕ → String)
    (calcAt : ℚ) : List CalculatedRoute :=
  let step1 := persistAssignmentsLoop e.id calcAt (assignments.take maxRoutes) [] []
  let step2 :=
    if includeDispatches then
      persistDispatchLoop routeFor forceNameOf e.id calcAt
        (dispatchVehicles db e.id) step1.1 []
    else []
  step1.2 ++ step2

/-- `views._persist_routes_for_emergency` as a database update: without
emergency coordinates it is a no-op (the source returns `{}` at once);
otherwise the emergency's `activa` rows are deleted and the new rows of
the two loops inserted, all in one transaction. -/
def persistRoutesForEmergency (db : DB) (e : Emergency)
    (assignments : List Assignment) (includeDispatches : Bool)
    (maxRoutes : ℕ) (routeFor : Vehicle → RouteInfo)
    (forceNameOf : ℕ → String) (calcAt : ℚ) : DB :=
  if ¬(pyTruthyF e.locationLat ∧ pyTruthyF e.locationLon) then db
  else
    let kept := db.routes.filter
      (fun r => ¬(r.emergencyId = e.id ∧ r.status = "activa"))
    { db with
      routes := kept ++ persistNewRoutes db e assignments includeDispatches
        maxRoutes routeFor forceNameOf calcAt }

/-- The emergency's routes with status `activa`. -/
def activeRoutesFor (db : DB) (eid : ℕ) : List CalculatedRoute :=
  db.routes.filter (fun r => r.emergencyId = eid ∧ r.status = "activa")

/-! ## Routing provider (`core/routing.py`)

HTTP responses are typed per the schema the code reads them with.
`dist` abstracts `RouteOptimizer.calculate_distance` (haversine in
metres); `congestion` abstracts `get_traffic_congestion_factor`
(a read-only aggregation over `TrafficCount` rows that yields `1.0`
when no data is found). -/

/-- A `StreetClosure` row. -/
structure StreetClosure where
  id : ℕ
  name : String
  lat : ℚ
  lon : ℚ
  closureType : String
  geometry : Option Geometry
  isActive : Bool
  startDate : ℚ
  endDate : Option ℚ
  deriving DecidableEq, Repr

/-- `RouteOptimizer.get_active_street_closures`: active flag and date
window against `now`. -/
def getActiveStreetClosures (closures : List StreetClosure) (now : ℚ) :
    List StreetClosure :=
  closures.filter (fun c =>
    c.isActive && decide (c.startDate ≤ now) &&
      (match c.endDate with | none => true | some d => decide (now ≤ d)))

/-- `RouteOptimizer._geometries_intersect`: proximity of vertices within
50 m.  A GeoJSON `Point` is modelled with a single-pair coordinate
list. -/
def geometriesIntersect (dist : (ℚ × ℚ) → (ℚ × ℚ) → ℚ)
    (geom1 geom2 : Geometry) : Bool :=
  if geom1.typ = "LineString" ∧ geom2.typ = "Point" then
    match geom2.coordinates with
    | pc :: _ => geom1.coordinates.any (fun c => dist (c.2, c.1) (pc.2, pc.1) ≤ 50)
    | [] => false
  else if geom1.typ = "LineString" ∧ geom2.typ = "LineString" then
    geom1.coordinates.any (fun c1 =>
      geom2.coordinates.any (fun c2 => dist (c1.2, c1.1) (c2.2, c2.1) ≤ 50))
  else false

/-- `RouteOptimizer.route_intersects_closure`. -/
def routeIntersectsClosure (dist : (ℚ × ℚ) → (ℚ × ℚ) → ℚ)
    (g : Option Geometry) (c : StreetClosure) : Bool :=
  match g with
  | none => false
  | some geo =>
    if geo.typ ≠ "LineString" then false
    else match c.geometry with
    | some cg => geometriesIntersect dist geo cg
    | none =>
      if ¬(c.lat ≠ 0 ∧ c.lon ≠ 0) then false
      else geo.coordinates.any (fun coord => dist (coord.2, coord.1) (c.lat, c.lon) ≤ 50)

/-- `RouteOptimizer.adjust_route_for_closures`.  With no currently active
closure, or none intersecting, the route is returned unchanged.  When a
closure intersects, the source builds alternative routes but always ends
by calling `self._generate_alternative_grid_path`, a method that does not
exist anywhere in the repository, so that branch unconditionally raises
`AttributeError`; the `Except.error` models that raise. -/
def adjustRouteForClosures (dist : (ℚ × ℚ) → (ℚ × ℚ) → ℚ)
    (activeClosures : List StreetClosure) (r : RouteInfo) :
    Except PyExc RouteInfo :=
  if activeClosures = [] then .ok r
  else if activeClosures.all (fun c => ¬ routeIntersectsClosure dist r.geometry c) then .ok r
  else .error "AttributeError: RouteOptimizer has no attribute _generate_alternative_grid_path"

/-- `RouteOptimizer.adjust_duration_for_traffic`: scale the duration when
the congestion factor exceeds 1. -/
def adjustDurationForTraffic (congestion : Option Geometry → ℚ)
    (r : RouteInfo) : RouteInfo :=
  if ¬(r.geometry.isSome ∧ pyTruthyF r.duration) then r
  else
    let f := congestion r.geometry
    if 1 < f then
      { r with
        originalDuration := r.duration,
        duration := r.duration.map (fun d => d * f),
        congestionFactor := some f,
        trafficAdjusted := true }
    else r

/-- One parsed Mapbox/OSRM route entry. -/
structure ProviderRoute where
  geometry : Option Geometry
  distance : Option ℚ
  duration : Option ℚ
  deriving DecidableEq, Repr

/-- A parsed Mapbox Directions response. -/
structure MapboxResp where
  routes : List ProviderRoute
  deriving DecidableEq, Repr

/-- A parsed OpenRouteService feature: the code indexes
`feature['geometry']` and `feature['properties']['segments'][0]`
directly, so those fields are not optional. -/
structure OrsFeature where
  geometry : Geometry
  segDistance : ℚ
  segDuration : ℚ
  deriving DecidableEq, Repr

/-- A parsed OpenRouteService response. -/
structure OrsResp where
  features : List OrsFeature
  deriving DecidableEq, Repr

/-- A parsed OSRM response. -/
structure OsrmResp where
  routes : List ProviderRoute
  deriving DecidableEq, Repr

/-- A parsed GraphHopper path (`points` is the GeoJSON geometry when
`points_encoded=false`; `time` is in milliseconds). -/
structure GhPath where
  points : Option Geometry
  distance : Option ℚ
  time : Option ℚ
  deriving DecidableEq, Repr

/-- A parsed GraphHopper response. -/
structure GhResp where
  paths : List GhPath
  deriving DecidableEq, Repr

/-- Outcomes of the HTTP exchanges, were they to be performed: `none`
stands for a non-200 status, a request exception, or unparseable
content. -/
structure RoutingNet where
  mapbox : Option MapboxResp
  ors : Option OrsResp
  osrmHosts : List (Option OsrmResp)
  graphhopper : Option GhResp

/-- Routing configuration (`settings` plus the environment flags read in
`RouteOptimizer.__init__`, and the 429 backoff clock state). -/
structure RoutingConfig where
  mapboxKey : Bool
  openrouteKey : Bool
  graphhopperKey : Bool
  offline : Bool
  orsInBackoff : Bool

/-- `RouteOptimizer.get_route_mapbox`: skipped offline or without a
key. -/
def getRouteMapbox (cfg : RoutingConfig) (net : RoutingNet) : Option MapboxResp :=
  if cfg.offline then none
  else if ¬cfg.mapboxKey then none
  else net.mapbox

/-- `RouteOptimizer.get_route_openroute`: skipped offline, without a key,
or during the 429 backoff window. -/
def getRouteOpenroute (cfg : RoutingConfig) (net : RoutingNet) : Option OrsResp :=
  if cfg.offline then none
  else if ¬cfg.openrouteKey then none
  else if cfg.orsInBackoff then none
  else net.ors

/-- Host scan of `RouteOptimizer._get_route_osrm_multi`: first host whose
response has a route and whose geometry is not a trivial LineString of
fewer than 3 points. -/
def firstValidOsrm : List (Option OsrmResp) → Option OsrmResp
  | [] => none
  | none :: t => firstValidOsrm t
  | some resp :: t =>
    match resp.routes with
    | [] => firstValidOsrm t
    | r0 :: _ =>
      match r0.geometry with
      | some geom =>
        if geom.typ = "LineString" ∧ geom.coordinates.length < 3 then firstValidOsrm t
        else some resp
      | none => some resp

/-- `RouteOptimizer.get_route_osrm` (multi-host). -/
def getRouteOsrm (cfg : RoutingConfig) (net : RoutingNet) : Option OsrmResp :=
  if cfg.offline then none else firstValidOsrm net.osrmHosts

/-- `RouteOptimizer.get_route_graphhopper`: requires a key and a
LineString geometry of at least 3 points. -/
def getRouteGraphhopper (cfg : RoutingConfig) (net : RoutingNet) : Option GhResp :=
  if cfg.offline then none
  else if ¬cfg.graphhopperKey then none
  else match net.graphhopper with
  | none => none
  | some g =>
    match g.paths with
    | [] => none
    | p :: _ =>
      match p.points with
      | some geo =>
        if geo.typ = "LineString" ∧ 3 ≤ geo.coordinates.length then some g else none
      | none => none

/-- The duplicate filter at the end of
`RouteOptimizer._generate_grid_path`: drop a point within `1e-6` of the
previous kept point in both coordinates. -/
def gridDedupStep (filtered : List (ℚ × ℚ)) (p : ℚ × ℚ) : List (ℚ × ℚ) :=
  match filtered.getLast? with
  | none => [p]
  | some q =>
    if 1/1000000 < |q.1 - p.1| ∨ 1/1000000 < |q.2 - p.2| then filtered ++ [p]
    else filtered

/-- `RouteOptimizer._generate_grid_path`: the deterministic 7-point
zig-zag in `(lat, lon)` order, with consecutive near-duplicates
filtered. -/
def generateGridPath (s e : ℚ × ℚ) : List (ℚ × ℚ) :=
  let sLat := s.1; let sLon := s.2
  let eLat := e.1; let eLon := e.2
  let dLat := eLat - sLat
  let dLon := eLon - sLon
  let mid1Lat := sLat + dLat * (35/100)
  let mid2Lat := sLat + dLat * (65/100)
  let offsetLat : ℚ := if 2/1000 < |dLat| then 7/10000 else 4/10000
  let offsetLon : ℚ := if 2/1000 < |dLon| then 7/10000 else 4/10000
  let lonSign : ℚ := if 0 ≤ dLon then 1 else -1
  let latSign : ℚ := if 0 ≤ dLat then 1 else -1
  let halfLon := sLon + dLon * (1/2)
  let points := [(sLat, sLon),
    (mid1Lat, sLon),
    (mid1Lat, sLon + offsetLon * lonSign),
    (mid2Lat, sLon + offsetLon * lonSign),
    (mid2Lat + offsetLat * latSign, halfLon),
    (eLat, halfLon),
    (eLat, eLon)]
  points.foldl gridDedupStep []

/-- The grid fallback result of `get_best_route` (step 5): geometry in
`(lon, lat)` order, urban speed 22 km/h. -/
def fallbackGridRoute (dist : (ℚ × ℚ) → (ℚ × ℚ) → ℚ) (s e : ℚ × ℚ) : RouteInfo :=
  let distance := dist s e
  let estimatedDuration := distance / 1000 / 22 * 60 * 60
  { provider := "FallbackGrid",
    geometry := some { typ := "LineString",
                       coordinates := (generateGridPath s e).map (fun c => (c.2, c.1)) },
    distance := some distance,
    duration := some estimatedDuration }

/-- Step 1 of `get_best_route`: the Mapbox branch, entered only with a
key, returning a result only when the first route has a geometry. -/
def attemptMapbox (cfg : RoutingConfig) (net : RoutingNet) : Option RouteInfo :=
  if ¬cfg.mapboxKey then none
  else match getRouteMapbox cfg net with
  | none => none
  | some resp =>
    match resp.routes with
    | [] => none
    | best :: _ =>
      match best.geometry with
      | none => none
      | some _ =>
        some { provider := "Mapbox", geometry := best.geometry,
               distance := best.distance, duration := best.duration }

/-- Step 2 of `get_best_route`: the OpenRouteService branch. -/
def attemptOpenroute (cfg : RoutingConfig) (net : RoutingNet) : Option RouteInfo :=
  match getRouteOpenroute cfg net with
  | none => none
  | some resp =>
    match resp.features with
    | [] => none
    | f :: _ =>
      some { provider := "OpenRoute", geometry := some f.geometry,
             distance := some f.segDistance, duration := some f.segDuration }

/-- Step 3 of `get_best_route`: the OSRM branch. -/
def attemptOsrm (cfg : RoutingConfig) (net : RoutingNet) : Option RouteInfo :=
  match getRouteOsrm cfg net with
  | none => none
  | some resp =>
    match resp.routes with
    | [] => none
    | r0 :: _ =>
      match r0.geometry with
      | none => none
      | some _ =>
        some { provider := "OSRM", geometry := r0.geometry,
               distance := r0.distance, duration := r0.duration }

/-- Step 4 of `get_best_route`: the GraphHopper branch (`duration` is
`time/1000` with Python falsy-zero handling). -/
def attemptGraphhopper (cfg : RoutingConfig) (net : RoutingNet) : Option RouteInfo :=
  match getRouteGraphhopper cfg net with
  | none => none
  | some g =>
    match g.paths with
    | [] => none
    | p :: _ =>
      match p.points with
      | none => none
      | some geo =>
        if geo.typ = "LineString" then
          some { provider := "GraphHopper", geometry := some geo,
                 distance := p.distance,
                 duration :=
                   match p.time with
                   | some t => if t ≠ 0 then some (t / 1000) else none
                   | none => none }
        else none

/-- `RouteOptimizer.get_best_route`.  `cached` is the LRU lookup outcome
(a hit is returned at once); every selected result, the fallback
included, passes through the closure adjustment and the traffic
adjustment before being returned. -/
def getBestRoute (dist : (ℚ × ℚ) → (ℚ × ℚ) → ℚ) (cfg : RoutingConfig)
    (net : RoutingNet) (cached : Option RouteInfo)
    (closures : List StreetClosure) (now : ℚ)
    (congestion : Option Geometry → ℚ)
    (s e : ℚ × ℚ) : Except PyExc RouteInfo :=
  match cached with
  | some c => .ok c
  | none =>
    let result :=
      match attemptMapbox cfg net with
      | some r => r
      | none =>
        match attemptOpenroute cfg net with
        | some r => r
        | none =>
          match attemptOsrm cfg net with
          | some r => r
          | none =>
            match attemptGraphhopper cfg net with
            | some r => r
            | none => fallbackGridRoute dist s e
    (adjustRouteForClosures dist (getActiveStreetClosures closures now) result).map
      (adjustDurationForTraffic congestion)

/-! ## Green-wave coordinator (`traffic_light_system.py`) -/

/-- One catalog intersection. -/
structure Intersection where
  interId : String
  name : String
  lat : ℚ
  lon : ℚ
  typ : String
  deriving DecidableEq, Repr

/-- `TrafficLightManager.MAJOR_INTERSECTIONS`, transcribed. -/
def MAJOR_INTERSECTIONS : List Intersection :=
  [⟨"9julio_corrientes", "9 de Julio y Corrientes", -346037/10000, -583816/10000, "major"⟩,
   ⟨"9julio_santafe", "9 de Julio y Santa Fe", -345945/10000, -583816/10000, "major"⟩,
   ⟨"9julio_rivadavia", "9 de Julio y Rivadavia", -346092/10000, -583816/10000, "major"⟩,
   ⟨"corrientes_callao", "Corrientes y Callao", -346037/10000, -583915/10000, "major"⟩,
   ⟨"corrientes_pueyrredon", "Corrientes y Pueyrredón", -346037/10000, -584015/10000, "major"⟩,
   ⟨"corrientes_scalabrini", "Corrientes y Scalabrini Ortiz", -346037/10000, -584210/10000, "major"⟩,
   ⟨"santafe_callao", "Santa Fe y Callao", -345945/10000, -583915/10000, "major"⟩,
   ⟨"santafe_pueyrredon", "Santa Fe y Pueyrredón", -345945/10000, -584015/10000, "major"⟩,
   ⟨"santafe_scalabrini", "Santa Fe y Scalabrini Ortiz", -345945/10000, -584210/10000, "major"⟩,
   ⟨"rivadavia_callao", "Rivadavia y Callao", -346092/10000, -583915/10000, "major"⟩,
   ⟨"rivadavia_pueyrredon", "Rivadavia y Pueyrredón", -346092/10000, -584015/10000, "major"⟩,
   ⟨"cabildo_juramento", "Cabildo y Juramento", -345632/10000, -584561/10000, "major"⟩,
   ⟨"cabildo_lacroze", "Cabildo y Lacroze", -345589/10000, -584502/10000, "major"⟩,
   ⟨"lasheras_pueyrredon", "Las Heras y Pueyrredón", -345895/10000, -584015/10000, "major"⟩,
   ⟨"lasheras_scalabrini", "Las Heras y Scalabrini Ortiz", -345895/10000, -584210/10000, "major"⟩,
   ⟨"florida_corrientes", "Florida y Corrientes", -346020/10000, -583748/10000, "secondary"⟩,
   ⟨"defensa_independencia", "Defensa y Independencia", -346178/10000, -583730/10000, "secondary"⟩,
   ⟨"paseo_colon_independencia", "Paseo Colón y Independencia", -346178/10000, -583645/10000, "secondary"⟩]

/-- One selected intersection along a route. -/
structure RouteIntersection where
  intersection : Intersection
  distanceFromStart : ℚ
  distanceToEnd : ℚ
  priority : ℕ
  deriving DecidableEq, Repr

/-- Loop body of `TrafficLightManager.find_intersections_on_route`:
append the intersection when the detour through it stays under
`max_distance` of the direct distance. -/
def intersectionStep (dist : (ℚ × ℚ) → (ℚ × ℚ) → ℚ)
    (sLat sLon eLat eLon maxDistance : ℚ)
    (acc : List RouteIntersection) (inter : Intersection) :
    List RouteIntersection :=
  let dfs := dist (sLat, sLon) (inter.lat, inter.lon)
  let dte := dist (inter.lat, inter.lon) (eLat, eLon)
  let direct := dist (sLat, sLon) (eLat, eLon)
  if |dfs + dte - direct| < maxDistance then
    acc ++ [{ intersection := inter, distanceFromStart := dfs,
              distanceToEnd := dte,
              priority := if inter.typ = "major" then 1 else 2 }]
  else acc

/-- `TrafficLightManager.find_intersections_on_route` (callers pass the
default `max_distance = 500` or 600); `dist` abstracts
`calculate_distance` (haversine in metres); the result is sorted by
distance from the start. -/
def findIntersectionsOnRoute (dist : (ℚ × ℚ) → (ℚ × ℚ) → ℚ)
    (sLat sLon eLat eLon maxDistance : ℚ) : List RouteIntersection :=
  let selected := MAJOR_INTERSECTIONS.foldl
    (intersectionStep dist sLat sLon eLat eLon maxDistance) []
  selected.mergeSort (fun a b => a.distanceFromStart ≤ b.distanceFromStart)

/-- One green-wave timing window. -/
structure GreenWindow where
  intersection : Intersection
  arrivalTime : ℚ
  greenStart : ℚ
  greenEnd : ℚ
  priority : ℕ
  deriving DecidableEq, Repr

/-- `TrafficLightManager.calculate_green_wave_timing`: the green opens
5 s before the arrival and stays for 45 s (major, priority 1) or 30 s
(secondary) after it.  `startTime` is the `datetime.now()` captured at
entry, in seconds. -/
def calculateGreenWaveTiming (routeIntersections : List RouteIntersection)
    (avgSpeedKmh : ℚ) (startTime : ℚ) : List GreenWindow :=
  let speedMs := avgSpeedKmh * 1000 / 3600
  routeIntersections.map (fun x =>
    let travelTimeSeconds := x.distanceFromStart / speedMs
    let arrivalTime := startTime + travelTimeSeconds
    let greenDuration : ℚ := if x.priority = 1 then 45 else 30
    { intersection := x.intersection, arrivalTime := arrivalTime,
      greenStart := arrivalTime - 5, greenEnd := arrivalTime + greenDuration,
      priority := x.priority })

/-! ## Generic lemmas about the Python-semantics helpers -/

lemma le_pyMax_left (a b : ℚ) : a ≤ pyMax a b := by
  unfold pyMax; split <;> linarith

lemma pyMax_le (a b c : ℚ) (h1 : a ≤ c) (h2 : b ≤ c) : pyMax a b ≤ c := by
  unfold pyMax; split <;> assumption

lemma pyMin_le_right (a b : ℚ) : pyMin a b ≤ b := by
  unfold pyMin; split <;> linarith

lemma pyRoundInt_intCast (m : ℤ) : pyRoundInt (m : ℚ) = m := by
  simp [pyRoundInt]

lemma pyRound_intCast (m : ℤ) (n : ℕ) : pyRound (m : ℚ) n = m := by
  have hcast : ((m : ℚ) * 10 ^ n) = ((m * 10 ^ n : ℤ) : ℚ) := by push_cast; ring
  unfold pyRound
  rw [hcast, pyRoundInt_intCast]
  push_cast
  field_simp

/-! ## Shared concrete fixtures used by witnesses and counterexamples -/

/-- Pattern set with no regex hit. -/
def noPatterns : TriagePatterns :=
  ⟨fun _ => false, fun _ => false, fun _ => false, fun _ => false⟩

/-- Trivial narrative generator. -/
def noNarrative : String → String := fun _ => ""

/-- A PRNG whose raw draws are all 0. -/
def zeroPrng : String → ℕ → ℚ := fun _ _ => 0

/-- A degenerate distance oracle. -/
def zeroDist : (ℚ × ℚ) → (ℚ × ℚ) → ℚ := fun _ _ => 0

def sampleEmergency : Emergency :=
  { id := 7, code := "rojo", priority := 10, description := "incendio",
    address := "", locationLat := some 1, locationLon := some 1,
    status := "asignada", assignedForce := none, assignedVehicle := none,
    ondaVerde := true, reportedAt := 0, resolvedAt := none,
    resolutionNotes := "", aiResponse := "" }

def sampleVehicle : Vehicle :=
  { id := 3, forceId := 1, typ := "Patrulla", currentLat := some 10,
    currentLon := some 20, targetLat := none, targetLon := none,
    homeFacility := none, status := "en_ruta" }

def sampleAgent : Agent :=
  { id := 4, name := "Ana", forceId := 1, role := "", status := "en_ruta",
    assignedVehicle := none, lat := some 1, lon := some 1,
    targetLat := none, targetLon := none }

def sampleDispatch : EmergencyDispatch :=
  { id := 1, emergencyId := 7, forceId := 1, vehicleId := some 3,
    agentId := some 4, status := "en_ruta", createdAt := 0 }

def sampleRoute : CalculatedRoute :=
  { emergencyId := 7, resourceId := "vehicle_3",
    resourceType := "Patrulla - Policía", distanceKm := 0,
    estimatedTimeMinutes := 1, priorityScore := 1, routeGeometry := none,
    status := "activa", calculatedAt := 0, completedAt := none }

def sampleDB : DB :=
  { emergencies := [sampleEmergency], vehicles := [sampleVehicle],
    agents := [sampleAgent], dispatches := [sampleDispatch],
    routes := [sampleRoute] }

/-! ## Claim theorems -/

/-- C9: classifying the empty description yields `code = verde`,
`score = 1` and `type = policial`: the rules-layer response dictionary
returns exactly that, and `classify_with_ai` reaches it for every
configuration and network outcome because `CloudAIClient.classify`
returns `None` at once on an empty description. -/
theorem emptyDescriptionClassification (pats : TriagePatterns)
    (narr : String → String) (cfg : AIConfig)
    (net : Except PyExc (Option RawResult)) :
    (getAiClassificationWithResponse pats narr "").codigo = "verde" ∧
    (getAiClassificationWithResponse pats narr "").score = 1 ∧
    (getAiClassificationWithResponse pats narr "").tipo = "policial" ∧
    classifyWithAi pats narr cfg net "" = .ok (localFallback pats narr "") ∧
    (localFallback pats narr "").codigo = "verde" ∧
    (localFallback pats narr "").score = some 1 ∧
    (localFallback pats narr "").tipo = "policial" := by
  refine ⟨rfl, rfl, rfl, ?_, rfl, rfl, rfl⟩
  simp [classifyWithAi, cloudClassify]

/-- C6: the tracking traffic factor is
`clamp(base · peak? · red?, 0.45, 1.75)` with `base = uniform(0.85,1.35)`
and `peak = uniform(1.05,1.25)` drawn in that order from the PRNG seeded
with `"{resource_id}-{incident_id}"`, the peak draw applied during the
07–10 and 17–20 hours, red-code incidents scaled by 0.6 under onda verde
and by 0.85 otherwise; the factor is a function of
`(resource_id, incident_id, hour, code, onda_verde)` alone and stays in
`[0.45, 1.75]`. -/
theorem trafficFactorDeterministic (prng : String → ℕ → ℚ) (hour : ℕ)
    (r : CalculatedRoute) (e : Emergency) :
    determineTrafficFactor prng hour r e =
      pyMax (45/100)
        (pyMin
          ((85/100 + (135/100 - 85/100) * prng (r.resourceId ++ "-" ++ toString r.emergencyId) 0)
            * (if (7 ≤ hour ∧ hour ≤ 10) ∨ (17 ≤ hour ∧ hour ≤ 20) then
                 105/100 + (125/100 - 105/100) * prng (r.resourceId ++ "-" ++ toString r.emergencyId) 1
               else 1)
            * (if e.code = "rojo" then (if e.ondaVerde then 6/10 else 85/100) else 1))
          (175/100)) ∧
    (45/100 ≤ determineTrafficFactor prng hour r e ∧
      determineTrafficFactor prng hour r e ≤ 175/100) ∧
    (∀ (r' : CalculatedRoute) (e' : Emergency),
      r'.resourceId = r.resourceId → r'.emergencyId = r.emergencyId →
      e'.code = e.code → e'.ondaVerde = e.ondaVerde →
      determineTrafficFactor prng hour r' e' = determineTrafficFactor prng hour r e) := by
  refine ⟨?_, ⟨le_pyMax_left _ _, pyMax_le _ _ _ (by norm_num) (pyMin_le_right _ _)⟩, ?_⟩
  · simp only [determineTrafficFactor, pyUniform]
    split_ifs <;>
      exact congrArg (pyMax (45/100)) (congrArg (fun x => pyMin x (175/100)) (by ring))
  · intro r' e' h1 h2 h3 h4
    simp only [determineTrafficFactor, pyUniform, h1, h2, h3, h4]

/-- C6 witness: at `prng = 0`, 08:00, red code with onda verde, the
factor equals `clamp(0.85 · 1.05 · 0.6, 0.45, 1.75) = 0.5355` and agrees
across routes sharing the seed inputs. -/
theorem trafficFactorDeterministic_witness :
    determineTrafficFactor zeroPrng 8 sampleRoute sampleEmergency =
      determineTrafficFactor zeroPrng 8 { sampleRoute with distanceKm := 99 } sampleEmergency ∧
    determineTrafficFactor zeroPrng 8 sampleRoute sampleEmergency = 1071/2000 := by
  have h := trafficFactorDeterministic zeroPrng 8 sampleRoute sampleEmergency
  constructor
  · exact ((h.2.2) { sampleRoute with distanceKm := 99 } sampleEmergency rfl rfl rfl rfl).symm
  · rw [h.1]
    norm_num [pyMax, pyMin, zeroPrng, sampleRoute, sampleEmergency]

/-- C3: after any save, `code = rojo` implies `priority = 10` and
`onda_verde = true`, `code = amarillo` implies `priority = 5`, and
`code = verde` implies `priority = 1`, for every classification
outcome. -/
theorem saveCodePriorityInvariant (classify : Emergency → Emergency × String)
    (e : Emergency) :
    ((emergencySave classify e).code = "rojo" →
      (emergencySave classify e).priority = 10 ∧
      (emergencySave classify e).ondaVerde = true) ∧
    ((emergencySave classify e).code = "amarillo" →
      (emergencySave classify e).priority = 5) ∧
    ((emergencySave classify e).code = "verde" →
      (emergencySave classify e).priority = 1) := by
  simp only [emergencySave]
  split_ifs with h1 h2 <;> simp_all

/-- C3 witness: a red-code emergency keeps priority 10 and onda verde
after saving. -/
theorem saveCodePriorityInvariant_witness :
    (emergencySave (fun e => (e, "verde"))
      { sampleEmergency with priority := 0, ondaVerde := false }).priority = 10 ∧
    (emergencySave (fun e => (e, "verde"))
      { sampleEmergency with priority := 0, ondaVerde := false }).ondaVerde = true := by
  exact (saveCodePriorityInvariant (fun e => (e, "verde"))
    { sampleEmergency with priority := 0, ondaVerde := false }).1 (by decide)

lemma dispatchPrimarySummary_frame (forceIdOf : String → ℕ)
    (rows : List EmergencyDispatch) (e : Emergency) :
    ∃ af av, dispatchPrimarySummary forceIdOf rows e =
      { e with assignedForce := af, assignedVehicle := av } := by
  simp only [dispatchPrimarySummary]
  split_ifs
  · rcases hm : ["Bomberos", "SAME", "Policía", "Tránsito"].findSome?
        (fun n => rows.find?
          (fun d => decide (d.emergencyId = e.id ∧ d.forceId = forceIdOf n)))
        with _ | d <;> rw [hm]
    · exact ⟨_, _, rfl⟩
    · exact ⟨_, _, rfl⟩
  · exact ⟨_, _, rfl⟩

lemma ensureMultiDispatch_emergency_frame (forceIdOf : String → ℕ)
    (bestVehicle bestAgent : String → Option ℕ) (now : ℚ)
    (ds : List EmergencyDispatch) (e : Emergency) :
    ∃ st af av,
      (ensureMultiDispatch forceIdOf bestVehicle bestAgent now ds e).1 =
        { e with status := st, assignedForce := af, assignedVehicle := av } := by
  simp only [ensureMultiDispatch]
  split_ifs
  · obtain ⟨af, av, hps⟩ := dispatchPrimarySummary_frame forceIdOf
      ((inferRequiredForces e).foldl
        (dispatchStep forceIdOf bestVehicle bestAgent e.id now) (ds, false)).1
      { e with status := "asignada" }
    exact ⟨"asignada", af, av, hps⟩
  · obtain ⟨af, av, hps⟩ := dispatchPrimarySummary_frame forceIdOf
      ((inferRequiredForces e).foldl
        (dispatchStep forceIdOf bestVehicle bestAgent e.id now) (ds, false)).1
      e
    exact ⟨e.status, af, av, hps⟩

lemma emergencySave_nonempty_frame (f : Emergency → Emergency × String)
    (e : Emergency) (h : e.code ≠ "") :
    ∃ pr ov, emergencySave f e = { e with priority := pr, ondaVerde := ov } := by
  simp only [emergencySave, if_neg h]
  split_ifs <;> exact ⟨_, _, rfl⟩

/-- C10 (amended): saving an emergency whose code is non-empty never
reclassifies: the full save (post-persist `process_ia` branch included)
does not depend on the classifier, the code survives any change to the
description, and on the emergency row only `priority`, `onda_verde`,
`status`, `assigned_force` and `assigned_vehicle` can change —
`onda_verde` only for red, and the last three only on a new instance,
through `ensure_multi_dispatch`; on a save of an existing instance the
dispatch table is untouched and only `priority` and `onda_verde` are
recomputed from the existing code. -/
theorem saveNonEmptyCodeFrame (f g : Emergency → Emergency × String)
    (forceIdOf : String → ℕ) (bv ba : String → Option ℕ) (now : ℚ)
    (ni : Bool) (ds : List EmergencyDispatch)
    (e : Emergency) (h : e.code ≠ "") (d : String) :
    emergencySaveFull f forceIdOf bv ba now ni ds e =
      emergencySaveFull g forceIdOf bv ba now ni ds e ∧
    (emergencySaveFull f forceIdOf bv ba now ni ds e).1.code = e.code ∧
    (emergencySaveFull f forceIdOf bv ba now ni ds
        { e with description := d }).1.code = e.code ∧
    (∃ pr ov st af av,
      (emergencySaveFull f forceIdOf bv ba now ni ds e).1 =
        { e with priority := pr, ondaVerde := ov, status := st,
                 assignedForce := af, assignedVehicle := av }) ∧
    (ni = false →
      emergencySaveFull f forceIdOf bv ba now ni ds e =
        (emergencySave f e, ds) ∧
      ∃ pr ov, emergencySave f e = { e with priority := pr, ondaVerde := ov }) ∧
    (e.code ≠ "rojo" →
      (emergencySaveFull f forceIdOf bv ba now ni ds e).1.ondaVerde =
        e.ondaVerde) := by
  obtain ⟨pr, ov, hsf⟩ := emergencySave_nonempty_frame f e h
  obtain ⟨pr2, ov2, hsg⟩ := emergencySave_nonempty_frame g e h
  have hfg : emergencySave f e = emergencySave g e := by
    simp only [emergencySave, if_neg h]
  have h2 : ({ e with description := d } : Emergency).code ≠ "" := h
  obtain ⟨pr3, ov3, hsd⟩ :=
    emergencySave_nonempty_frame f { e with description := d } h2
  have hcode : (emergencySave f e).code = e.code := by rw [hsf]
  have hcoded : (emergencySave f { e with description := d }).code = e.code := by
    rw [hsd]
  have hov : e.code ≠ "rojo" → (emergencySave f e).ondaVerde = e.ondaVerde := by
    intro hr
    simp only [emergencySave, if_neg h, if_neg hr]
    split_ifs <;> rfl
  refine ⟨by rw [emergencySaveFull, emergencySaveFull, hfg], ?_, ?_, ?_, ?_, ?_⟩
  · rw [emergencySaveFull]
    split_ifs with hni
    · obtain ⟨st, af, av, hm⟩ := ensureMultiDispatch_emergency_frame
        forceIdOf bv ba now ds (emergencySave f e)
      rw [hm, hsf]
    · exact hcode
  · rw [emergencySaveFull]
    split_ifs with hni
    · obtain ⟨st, af, av, hm⟩ := ensureMultiDispatch_emergency_frame
        forceIdOf bv ba now ds (emergencySave f { e with description := d })
      rw [hm, hsd]
    · exact hcoded
  · rw [emergencySaveFull]
    split_ifs with hni
    · obtain ⟨st, af, av, hm⟩ := ensureMultiDispatch_emergency_frame
        forceIdOf bv ba now ds (emergencySave f e)
      rw [hm, hsf]
      exact ⟨pr, ov, st, af, av, rfl⟩
    · rw [hsf]
      exact ⟨pr, ov, e.status, e.assignedForce, e.assignedVehicle, rfl⟩
  · intro hni
    refine ⟨?_, pr, ov, hsf⟩
    rw [emergencySaveFull]
    rw [if_neg (by simp [hni])]
  · intro hr
    rw [emergencySaveFull]
    split_ifs with hni
    · obtain ⟨st, af, av, hm⟩ := ensureMultiDispatch_emergency_frame
        forceIdOf bv ba now ds (emergencySave f e)
      rw [hm]
      exact hov hr
    · exact hov hr

def cexForceIdOf : String → ℕ := fun n =>
  if n = "Policía" then 3 else if n = "SAME" then 2 else
  if n = "Bomberos" then 1 else 4

def cexPendingRojo : Emergency :=
  { sampleEmergency with code := "rojo", status := "pendiente",
                         description := "" }

/-- C10 counterexample: on a newly created incident whose code is
already `rojo`, the post-save `process_ia` branch mutates more than
`priority` and `onda_verde`: `ensure_multi_dispatch` creates a dispatch
row, flips the `pendiente` status to `asignada` and fills the primary
`assigned_force` summary, while still leaving the code unchanged. -/
theorem saveNewInstanceMutation_cex :
    (emergencySaveFull (fun e => (e, "verde")) cexForceIdOf (fun _ => none)
        (fun _ => none) 0 true [] cexPendingRojo).1.status = "asignada" ∧
    cexPendingRojo.status = "pendiente" ∧
    (emergencySaveFull (fun e => (e, "verde")) cexForceIdOf (fun _ => none)
        (fun _ => none) 0 true [] cexPendingRojo).1.assignedForce = some 3 ∧
    cexPendingRojo.assignedForce = none ∧
    (emergencySaveFull (fun e => (e, "verde")) cexForceIdOf (fun _ => none)
        (fun _ => none) 0 true [] cexPendingRojo).1.code = "rojo" ∧
    ((emergencySaveFull (fun e => (e, "verde")) cexForceIdOf (fun _ => none)
        (fun _ => none) 0 true [] cexPendingRojo).2.map
        (fun d => d.status)) = ["despachado"] := by
  exact ⟨rfl, rfl, rfl, rfl, rfl, rfl⟩

/-- C10 witness: with a non-empty code, two different classifiers produce
the same saved state and the code survives a description change, even on
the new-instance path. -/
theorem saveNonEmptyCodeFrame_witness :
    emergencySaveFull (fun e => (e, "verde")) cexForceIdOf (fun _ => none)
        (fun _ => none) 0 true []
        { sampleEmergency with code := "amarillo" } =
      emergencySaveFull (fun e => ({ e with address := "otra" }, "rojo"))
        cexForceIdOf (fun _ => none) (fun _ => none) 0 true []
        { sampleEmergency with code := "amarillo" } ∧
    (emergencySaveFull (fun e => (e, "verde")) cexForceIdOf (fun _ => none)
        (fun _ => none) 0 true []
        { { sampleEmergency with code := "amarillo" } with
            description := "cambio" }).1.code = "amarillo" := by
  have h := saveNonEmptyCodeFrame (fun e => (e, "verde"))
    (fun e => ({ e with address := "otra" }, "rojo"))
    cexForceIdOf (fun _ => none) (fun _ => none) 0 true []
    { sampleEmergency with code := "amarillo" } (by decide) "cambio"
  exact ⟨h.1, h.2.2.1⟩

lemma intersectionStep_foldl_priority (dist : (ℚ × ℚ) → (ℚ × ℚ) → ℚ)
    (sLat sLon eLat eLon md : ℚ) :
    ∀ (l : List Intersection) (init : List RouteIntersection),
      (∀ x ∈ init, (x.priority = 1 ↔ x.intersection.typ = "major")) →
      ∀ x ∈ l.foldl (intersectionStep dist sLat sLon eLat eLon md) init,
        (x.priority = 1 ↔ x.intersection.typ = "major") := by
  intro l
  induction l with
  | nil => intro init hinit x hx; exact hinit x hx
  | cons a t ih =>
    intro init hinit x hx
    refine ih _ ?_ x hx
    intro y hy
    simp only [intersectionStep] at hy
    by_cases hc : |dist (sLat, sLon) (a.lat, a.lon) + dist (a.lat, a.lon) (eLat, eLon)
        - dist (sLat, sLon) (eLat, eLon)| < md
    · rw [if_pos hc] at hy
      rcases List.mem_append.1 hy with hmem | hmem
      · exact hinit y hmem
      · rcases List.mem_singleton.1 hmem with rfl
        by_cases ht : a.typ = "major" <;> simp [ht]
    · rw [if_neg hc] at hy
      exact hinit y hy

/-- C7 (amended): every window produced by the green-wave timing
computation has `green_start = arrival − 5 s` and
`green_end = arrival + 45 s` for priority-1 (major) intersections,
`arrival + 30 s` for secondary ones — so the window length
`green_end − green_start` is 50 s or 35 s, not 30 s or 45 s; and the
intersections selected along a route carry priority 1 exactly when the
catalog marks them major. -/
theorem greenWaveWindowShape (xs : List RouteIntersection) (v t : ℚ) :
    (∀ w ∈ calculateGreenWaveTiming xs v t,
      w.greenStart = w.arrivalTime - 5 ∧
      (w.priority = 1 → w.greenEnd = w.arrivalTime + 45) ∧
      (w.priority ≠ 1 → w.greenEnd = w.arrivalTime + 30) ∧
      (w.greenEnd - w.greenStart = 50 ∨ w.greenEnd - w.greenStart = 35)) ∧
    (∀ (dist : (ℚ × ℚ) → (ℚ × ℚ) → ℚ) (sLat sLon eLat eLon md : ℚ),
      ∀ x ∈ findIntersectionsOnRoute dist sLat sLon eLat eLon md,
        (x.priority = 1 ↔ x.intersection.typ = "major")) := by
  constructor
  · intro w hw
    simp only [calculateGreenWaveTiming, List.mem_map] at hw
    obtain ⟨x, hx, rfl⟩ := hw
    dsimp only
    refine ⟨by ring, ?_, ?_, ?_⟩
    · intro hp; rw [if_pos hp]
    · intro hp; rw [if_neg hp]
    · by_cases hp : x.priority = 1
      · left; rw [if_pos hp]; ring
      · right; rw [if_neg hp]; ring
  · intro dist sLat sLon eLat eLon md x hx
    simp only [findIntersectionsOnRoute, List.mem_mergeSort] at hx
    exact intersectionStep_foldl_priority dist sLat sLon eLat eLon md
      MAJOR_INTERSECTIONS [] (by intro y hy; cases hy) x hx

def cexIntersectionMajor : Intersection :=
  { interId := "9julio_corrientes", name := "9 de Julio y Corrientes",
    lat := -346037/10000, lon := -583816/10000, typ := "major" }

def cexRouteIntersection : RouteIntersection :=
  { intersection := cexIntersectionMajor, distanceFromStart := 0,
    distanceToEnd := 100, priority := 1 }

/-- C7 counterexample: a selected major intersection right at the
resource's position yields the window
`green_start = arrival − 5, green_end = arrival + 45`, whose length is
50 s — not in `{30 s, 45 s}` as the claim asserts. -/
theorem greenWaveWindowWidth_cex :
    ((calculateGreenWaveTiming [cexRouteIntersection] 50 0).map
       (fun w => w.greenEnd - w.greenStart)) = [50] ∧
    ¬((50 : ℚ) = 30 ∨ (50 : ℚ) = 45) := by
  constructor
  · simp [calculateGreenWaveTiming, cexRouteIntersection]
    norm_num
  · norm_num

def cexIntersectionSecondary : Intersection :=
  { interId := "florida_corrientes", name := "Florida y Corrientes",
    lat := -346020/10000, lon := -583748/10000, typ := "secondary" }

def cexSecondaryRI : RouteIntersection :=
  { intersection := cexIntersectionSecondary, distanceFromStart := 0,
    distanceToEnd := 200, priority := 2 }

def cexSecondaryWindow : GreenWindow :=
  { intersection := cexIntersectionSecondary, arrivalTime := 0,
    greenStart := -5, greenEnd := 30, priority := 2 }

/-- C7 witness: the amended shape instantiated on a secondary
intersection window. -/
theorem greenWaveWindowShape_witness :
    cexSecondaryWindow.greenEnd - cexSecondaryWindow.greenStart = 50 ∨
    cexSecondaryWindow.greenEnd - cexSecondaryWindow.greenStart = 35 := by
  have hmem : cexSecondaryWindow ∈ calculateGreenWaveTiming [cexSecondaryRI] 50 0 := by
    simp [calculateGreenWaveTiming, cexSecondaryRI, cexSecondaryWindow,
      cexIntersectionSecondary]
  exact ((greenWaveWindowShape [cexSecondaryRI] 50 0).1 cexSecondaryWindow hmem).2.2.2

def misconfiguredAI : AIConfig :=
  { provider := "openai", openaiKey := false, ollamaUrl := false }

def someRawResult : RawResult :=
  { tipo := some "medico", codigo := some "rojo", score := some 80,
    razones := [], respuestaIa := some "r", recursos := [] }

/-- C2 counterexample: with the external provider explicitly selected
(`openai`) and its credentials absent, triage classification does not
fail with any error — no `MisconfiguredProvider` exists in the code — it
silently returns the rules-layer classification with `fuente = local`. -/
theorem misconfiguredProviderSilentFallback_cex :
    classifyWithAi noPatterns noNarrative misconfiguredAI
        (.ok (some someRawResult)) "incendio" =
      .ok { tipo := "policial", codigo := "amarillo", score := some 40,
            razones := ["Severidad media: incendio (+40)"], respuestaIa := "",
            recursos := [], fuente := "local" } := by
  rfl

/-- C2 (amended): triage classification never raises under any
configuration or provider outcome: when the selected provider's
credentials are absent, and on any provider failure (exception, timeout,
non-JSON, malformed response — all of which surface as an error or a
`None` outcome), it falls back to the rules layer and still returns a
classification whose `(codigo, score, tipo)` come from
`classify_emergency` and whose `fuente` field records `local`; a parsed
cloud response is returned normalized with `fuente` naming the
provider. -/
theorem classifyWithAiNeverRaises (pats : TriagePatterns)
    (narr : String → String) (cfg : AIConfig)
    (net : Except PyExc (Option RawResult)) (description : String) :
    (∃ c, classifyWithAi pats narr cfg net description = .ok c) ∧
    (∀ exc : PyExc, classifyWithAi pats narr cfg net description ≠ .error exc) ∧
    (cfg.provider = "openai" → cfg.openaiKey = false →
      classifyWithAi pats narr cfg net description =
        .ok (localFallback pats narr description)) ∧
    (cfg.provider = "ollama" → cfg.ollamaUrl = false →
      classifyWithAi pats narr cfg net description =
        .ok (localFallback pats narr description)) ∧
    (∀ exc : PyExc, net = .error exc →
      classifyWithAi pats narr cfg net description =
        .ok (localFallback pats narr description)) ∧
    (net = .ok none →
      classifyWithAi pats narr cfg net description =
        .ok (localFallback pats narr description)) ∧
    (localFallback pats narr description).fuente = "local" ∧
    (description ≠ "" →
      (localFallback pats narr description).codigo =
        (classifyEmergency pats description).1 ∧
      (localFallback pats narr description).score =
        some (classifyEmergency pats description).2.1 ∧
      (localFallback pats narr description).tipo =
        (classifyEmergency pats description).2.2.2) ∧
    (∀ raw, net = .ok (some raw) → description ≠ "" →
      cfg.provider = "openai" → cfg.openaiKey = true →
      classifyWithAi pats narr cfg net description =
        .ok (normalizeResult raw cfg.provider) ∧
      (normalizeResult raw cfg.provider).fuente = cfg.provider) := by
  refine ⟨?_, ?_, ?_, ?_, ?_, ?_, rfl, ?_, ?_⟩
  · cases hc : cloudClassify cfg net description with
    | error exc => exact ⟨localFallback pats narr description, by simp [classifyWithAi, hc]⟩
    | ok o =>
      cases o with
      | none => exact ⟨localFallback pats narr description, by simp [classifyWithAi, hc]⟩
      | some raw => exact ⟨normalizeResult raw cfg.provider, by simp [classifyWithAi, hc]⟩
  · intro exc
    cases hc : cloudClassify cfg net description with
    | error e => simp [classifyWithAi, hc]
    | ok o => cases o <;> simp [classifyWithAi, hc]
  · intro hp hk
    simp [classifyWithAi, cloudClassify, hp, hk]
  · intro hp hk
    have hne : cfg.provider ≠ "openai" := by rw [hp]; decide
    simp [classifyWithAi, cloudClassify, hp, hk, hne]
  · intro exc hnet
    subst hnet
    simp only [classifyWithAi, cloudClassify]
    split_ifs <;> rfl
  · intro hnet
    subst hnet
    simp only [classifyWithAi, cloudClassify]
    split_ifs <;> rfl
  · intro hd
    simp [localFallback, getAiClassificationWithResponse, hd]
  · intro raw hnet hd hp hk
    subst hnet
    refine ⟨by simp [classifyWithAi, cloudClassify, hd, hp, hk], rfl⟩

def ollamaNoUrlAI : AIConfig :=
  { provider := "ollama", openaiKey := true, ollamaUrl := false }

/-- C2 witness: the never-raises theorem instantiated on an ollama
configuration without a base URL. -/
theorem classifyWithAiNeverRaises_witness :
    classifyWithAi noPatterns noNarrative ollamaNoUrlAI (.ok none) "robo" =
      .ok (localFallback noPatterns noNarrative "robo") := by
  exact (classifyWithAiNeverRaises noPatterns noNarrative ollamaNoUrlAI
    (.ok none) "robo").2.2.2.1 rfl rfl

lemma buildVehicleTracking_progress_val (hav : (ℚ × ℚ) → (ℚ × ℚ) → ℚ)
    (prng : String → ℕ → ℚ) (hour : ℕ) (now : ℚ) (v : Vehicle)
    (e : Emergency) (r : CalculatedRoute) :
    (buildVehicleTracking hav prng hour now v e r).map TrackingEntry.progress =
      (buildVehicleTracking hav prng hour now v e r).map (fun _ =>
        pyRound (pyMin 1 (pyMax 0 (now - r.calculatedAt) /
          (pyMax (pyOrQ r.estimatedTimeMinutes 1 * 60) 60 *
            determineTrafficFactor prng hour r e))) 3) := by
  simp only [buildVehicleTracking]
  rcases hI : interpolateRoutePoint hav r.routeGeometry
      (pyMin 1 (pyMax 0 (now - r.calculatedAt) /
        (pyMax (pyOrQ r.estimatedTimeMinutes 1 * 60) 60 *
          determineTrafficFactor prng hour r e))) with _ | p
  · rcases hA : pyOrF v.currentLat e.locationLat with _ | la <;>
      rcases hB : pyOrF v.currentLon e.locationLon with _ | lo <;> rfl
  · rfl

/-- C8 (amended): for a dispatch whose route has missing geometry,
snapshot synthesis falls back for the current point to the vehicle's own
coordinates when truthy, else the incident's; it fails — the source's
`round(None, 6)` raising `TypeError` — exactly when for latitude or
longitude both fallbacks are null or zero.  The progress of any produced
entry is the elapsed-over-adjusted-time fraction clamped to `[0, 1]` —
it is not forced to 0 by the missing geometry — and coincides with the
progress produced for the same dispatch under any other geometry. -/
theorem trackingMissingGeometry (hav : (ℚ × ℚ) → (ℚ × ℚ) → ℚ)
    (prng : String → ℕ → ℚ) (hour : ℕ) (now : ℚ) (v : Vehicle)
    (e : Emergency) (r : CalculatedRoute)
    (hg : r.routeGeometry = none) :
    (buildVehicleTracking hav prng hour now v e r = none ↔
      pyOrF v.currentLat e.locationLat = none ∨
      pyOrF v.currentLon e.locationLon = none) ∧
    (∀ la lo : ℚ, pyOrF v.currentLat e.locationLat = some la →
      pyOrF v.currentLon e.locationLon = some lo →
      (buildVehicleTracking hav prng hour now v e r).map
          (fun tr => tr.currentPosition) =
        some (pyRound la 6, pyRound lo 6)) ∧
    (buildVehicleTracking hav prng hour now v e r).map TrackingEntry.progress =
      (buildVehicleTracking hav prng hour now v e r).map (fun _ =>
        pyRound (pyMin 1 (pyMax 0 (now - r.calculatedAt) /
          (pyMax (pyOrQ r.estimatedTimeMinutes 1 * 60) 60 *
            determineTrafficFactor prng hour r e))) 3) ∧
    (∀ (g : Option Geometry) (tr tg : TrackingEntry),
      buildVehicleTracking hav prng hour now v e r = some tr →
      buildVehicleTracking hav prng hour now v e
          { r with routeGeometry := g } = some tg →
      tg.progress = tr.progress) := by
  refine ⟨?_, ?_, buildVehicleTracking_progress_val hav prng hour now v e r, ?_⟩
  · simp only [buildVehicleTracking, hg, interpolateRoutePoint]
    rcases hA : pyOrF v.currentLat e.locationLat with _ | la <;>
      rcases hB : pyOrF v.currentLon e.locationLon with _ | lo <;> simp
  · intro la lo hla hlo
    simp only [buildVehicleTracking, hg, interpolateRoutePoint, hla, hlo]
    rfl
  · intro g tr tg htr htg
    have h1 := buildVehicleTracking_progress_val hav prng hour now v e r
    have h2 := buildVehicleTracking_progress_val hav prng hour now v e
      { r with routeGeometry := g }
    rw [htr] at h1
    rw [htg] at h2
    exact (Option.some.inj h2).trans (Option.some.inj h1).symm

def cexEmergencyVerde : Emergency :=
  { sampleEmergency with code := "verde", ondaVerde := false }

/-- C8 counterexample: a dispatch whose route has missing geometry but
whose trip time has fully elapsed reports `progress = 1`, not
`progress = 0`, while using the vehicle's own coordinates `(10, 20)` as
the current point. -/
theorem trackingProgressNotZero_cex :
    (buildVehicleTracking zeroDist zeroPrng 12 100 sampleVehicle
        cexEmergencyVerde sampleRoute).map
        (fun tr => (tr.progress, tr.currentPosition)) =
      some (1, (10, 20)) ∧
    (1 : ℚ) ≠ 0 ∧ sampleRoute.routeGeometry = none := by
  have hfac : determineTrafficFactor zeroPrng 12 sampleRoute cexEmergencyVerde = 17/20 := by
    have hcode : cexEmergencyVerde.code = "verde" := rfl
    have hvr : ¬("verde" = "rojo") := by decide
    have hhr : ¬((7 ≤ 12 ∧ 12 ≤ 10) ∨ (17 ≤ 12 ∧ 12 ≤ 20)) := by norm_num
    simp only [determineTrafficFactor, pyUniform, zeroPrng, hcode, if_neg hvr,
      if_neg hhr]
    norm_num [pyMax, pyMin]
  have h1 : pyRound (1 : ℚ) 3 = 1 := by
    have := pyRound_intCast 1 3
    norm_num at this
    exact this
  have h10 : pyRound (10 : ℚ) 6 = 10 := by
    have := pyRound_intCast 10 6
    norm_num at this
    exact this
  have h20 : pyRound (20 : ℚ) 6 = 20 := by
    have := pyRound_intCast 20 6
    norm_num at this
    exact this
  have hest : sampleRoute.estimatedTimeMinutes = 1 := rfl
  have hcalc : sampleRoute.calculatedAt = 0 := rfl
  have hgeo : sampleRoute.routeGeometry = none := rfl
  have hvla : sampleVehicle.currentLat = some 10 := rfl
  have hvlo : sampleVehicle.currentLon = some 20 := rfl
  refine ⟨?_, by norm_num, rfl⟩
  simp only [buildVehicleTracking, hest, hcalc, hgeo, hvla, hvlo, hfac,
    interpolateRoutePoint]
  norm_num [pyOrF, pyTruthyF, pyOrQ, pyMax, pyMin, h1, h10, h20]

/-- C8 witness: the amended theorem instantiated on the sample vehicle,
whose truthy coordinates `(10, 20)` become the current point. -/
theorem trackingMissingGeometry_witness :
    (buildVehicleTracking zeroDist zeroPrng 3 0 sampleVehicle sampleEmergency
        sampleRoute).map (fun tr => tr.currentPosition) =
      some (pyRound 10 6, pyRound 20 6) := by
  exact (trackingMissingGeometry zeroDist zeroPrng 3 0 sampleVehicle
    sampleEmergency sampleRoute rfl).2.1 10 20
    (by norm_num [sampleVehicle, sampleEmergency, pyOrF, pyTruthyF])
    (by norm_num [sampleVehicle, sampleEmergency, pyOrF, pyTruthyF])

/-- C1: resolving an incident sets its status to `resuelta` with a
non-null `resolved_at`, marks every one of its dispatches `finalizado`,
returns every dispatched vehicle and agent to `disponible`, transitions
all of its `activa` routes to `completada` with `completed_at` set (and
leaves no route of the incident active), and any subsequent mobility
snapshot for the incident reports `progress = 1`. -/
theorem resolveReleasesEverything (db : DB) (eid : ℕ) (now nowR : ℚ)
    (notes : String) (prng : String → ℕ → ℚ) (hour : ℕ) (t : ℚ) :
    (∀ e ∈ (emergencyResolve db eid now nowR notes).emergencies, e.id = eid →
      e.status = "resuelta" ∧ e.resolvedAt = some now ∧ e.resolvedAt ≠ none) ∧
    (∀ d ∈ (emergencyResolve db eid now nowR notes).dispatches,
      d.emergencyId = eid → d.status = "finalizado") ∧
    (∀ d ∈ db.dispatches, d.emergencyId = eid →
      ∀ vid, d.vehicleId = some vid →
        ∀ v ∈ (emergencyResolve db eid now nowR notes).vehicles, v.id = vid →
          v.status = "disponible") ∧
    (∀ d ∈ db.dispatches, d.emergencyId = eid →
      ∀ aid, d.agentId = some aid →
        ∀ a ∈ (emergencyResolve db eid now nowR notes).agents, a.id = aid →
          a.status = "disponible") ∧
    (∀ r ∈ db.routes, r.emergencyId = eid → r.status = "activa" →
      { r with status := "completada", completedAt := some nowR } ∈
        (emergencyResolve db eid now nowR notes).routes) ∧
    (∀ r ∈ (emergencyResolve db eid now nowR notes).routes,
      r.emergencyId = eid → r.status ≠ "activa") ∧
    (∀ e ∈ (emergencyResolve db eid now nowR notes).emergencies, e.id = eid →
      ∀ r : CalculatedRoute, mobilitySnapshotProgress prng hour t e r = 1) := by
  refine ⟨?_, ?_, ?_, ?_, ?_, ?_, ?_⟩
  · intro e he hid
    simp only [emergencyResolve, List.mem_map] at he
    obtain ⟨e0, he0, rfl⟩ := he
    by_cases h : e0.id = eid
    · rw [if_pos h]
      exact ⟨rfl, rfl, by simp⟩
    · rw [if_pos ?_]
      · exact ⟨rfl, rfl, by simp⟩
      · rw [if_neg h] at hid
        exact absurd hid h
  · intro d hd hid
    simp only [emergencyResolve, List.mem_map] at hd
    obtain ⟨d0, hd0, rfl⟩ := hd
    by_cases h : d0.emergencyId = eid
    · rw [if_pos h]
    · rw [if_neg h] at hid ⊢
      exact absurd hid h
  · intro d hd hde vid hvid v hv hvidEq
    simp only [emergencyResolve, List.mem_map] at hv
    obtain ⟨v0, hv0, rfl⟩ := hv
    have hmem : vid ∈ (db.dispatches.filter
        (fun d => d.emergencyId = eid)).filterMap (fun d => d.vehicleId) := by
      refine List.mem_filterMap.2 ⟨d, List.mem_filter.2 ⟨hd, by simp [hde]⟩, hvid⟩
    have hv0id : v0.id = vid := by
      by_cases hc : ((db.dispatches.filter
          (fun d => d.emergencyId = eid)).filterMap
            (fun d => d.vehicleId)).contains v0.id
      · rw [if_pos hc] at hvidEq; exact hvidEq
      · rw [if_neg hc] at hvidEq; exact hvidEq
    have hcon : ((db.dispatches.filter
        (fun d => d.emergencyId = eid)).filterMap
          (fun d => d.vehicleId)).contains v0.id = true := by
      rw [hv0id]; simp [hmem]
    rw [if_pos hcon]
  · intro d hd hde aid haid a ha haidEq
    simp only [emergencyResolve, List.mem_map] at ha
    obtain ⟨a0, ha0, rfl⟩ := ha
    have hmem : aid ∈ (db.dispatches.filter
        (fun d => d.emergencyId = eid)).filterMap (fun d => d.agentId) := by
      refine List.mem_filterMap.2 ⟨d, List.mem_filter.2 ⟨hd, by simp [hde]⟩, haid⟩
    have ha0id : a0.id = aid := by
      by_cases hc : ((db.dispatches.filter
          (fun d => d.emergencyId = eid)).filterMap
            (fun d => d.agentId)).contains a0.id
      · rw [if_pos hc] at haidEq; exact haidEq
      · rw [if_neg hc] at haidEq; exact haidEq
    have hcon : ((db.dispatches.filter
        (fun d => d.emergencyId = eid)).filterMap
          (fun d => d.agentId)).contains a0.id = true := by
      rw [ha0id]; simp [hmem]
    rw [if_pos hcon]
  · intro r hr hre hact
    simp only [emergencyResolve, List.mem_map]
    refine ⟨r, hr, ?_⟩
    rw [if_pos ⟨hre, hact⟩]
  · intro r hr hre
    simp only [emergencyResolve, List.mem_map] at hr
    obtain ⟨r0, hr0, rfl⟩ := hr
    by_cases h : r0.emergencyId = eid ∧ r0.status = "activa"
    · rw [if_pos h]; simp
    · rw [if_neg h] at hre ⊢
      intro hact
      exact h ⟨hre, hact⟩
  · intro e he hid r
    simp only [emergencyResolve, List.mem_map] at he
    obtain ⟨e0, he0, rfl⟩ := he
    by_cases h : e0.id = eid
    · rw [if_pos h]
      simp [mobilitySnapshotProgress]
    · rw [if_neg h] at hid
      exact absurd hid h

/-- C1 witness: after resolving the sample incident, the frozen snapshot
of its route reports progress 1. -/
theorem resolveReleasesEverything_witness :
    mobilitySnapshotProgress zeroPrng 12 99
      { sampleEmergency with status := "resuelta", resolvedAt := some 50 }
      sampleRoute = 1 := by
  have h := resolveReleasesEverything sampleDB 7 50 51 "" zeroPrng 12 99
  refine (h.2.2.2.2.2.2) _ ?_ rfl sampleRoute
  decide

lemma persistAssignmentsLoop_rows (eid : ℕ) (c : ℚ) :
    ∀ (xs : List Assignment) (ids : List String) (acc : List CalculatedRoute),
      (∀ r ∈ acc, r.emergencyId = eid ∧ r.status = "activa") →
      ∀ r ∈ (persistAssignmentsLoop eid c xs ids acc).2,
        r.emergencyId = eid ∧ r.status = "activa" := by
  intro xs
  induction xs with
  | nil => intro ids acc hacc r hr; exact hacc r hr
  | cons a t ih =>
    intro ids acc hacc r hr
    cases ha : a.resourceId with
    | none =>
      simp only [persistAssignmentsLoop, ha] at hr
      exact ih ids acc hacc r hr
    | some rid =>
      simp only [persistAssignmentsLoop, ha] at hr
      by_cases hc : rid = "" ∨ rid ∈ ids
      · rw [if_pos hc] at hr
        exact ih ids acc hacc r hr
      · rw [if_neg hc] at hr
        refine ih _ _ ?_ r hr
        intro r2 hr2
        rcases List.mem_append.1 hr2 with h2 | h2
        · exact hacc r2 h2
        · rcases List.mem_singleton.1 h2 with rfl
          exact ⟨rfl, rfl⟩

lemma persistDispatchLoop_rows (routeFor : Vehicle → RouteInfo)
    (forceNameOf : ℕ → String) (eid : ℕ) (c : ℚ) :
    ∀ (vs : List (Option Vehicle)) (ids : List String)
      (acc : List CalculatedRoute),
      (∀ r ∈ acc, r.emergencyId = eid ∧ r.status = "activa") →
      ∀ r ∈ persistDispatchLoop routeFor forceNameOf eid c vs ids acc,
        r.emergencyId = eid ∧ r.status = "activa" := by
  intro vs
  induction vs with
  | nil => intro ids acc hacc r hr; exact hacc r hr
  | cons ov t ih =>
    intro ids acc hacc r hr
    cases ov with
    | none =>
      simp only [persistDispatchLoop] at hr
      exact ih ids acc hacc r hr
    | some v =>
      simp only [persistDispatchLoop] at hr
      by_cases hl : v.currentLat = none ∨ v.currentLon = none
      · rw [if_pos hl] at hr
        exact ih ids acc hacc r hr
      · rw [if_neg hl] at hr
        by_cases hin : ("vehicle_" ++ toString v.id) ∈ ids
        · rw [if_pos hin] at hr
          exact ih ids acc hacc r hr
        · rw [if_neg hin] at hr
          refine ih _ _ ?_ r hr
          intro r2 hr2
          rcases List.mem_append.1 hr2 with h2 | h2
          · exact hacc r2 h2
          · rcases List.mem_singleton.1 h2 with rfl
            exact ⟨rfl, rfl⟩

lemma persistNewRoutes_rows (db : DB) (e : Emergency)
    (assignments : List Assignment) (incl : Bool) (maxRoutes : ℕ)
    (routeFor : Vehicle → RouteInfo) (forceNameOf : ℕ → String) (calcAt : ℚ) :
    ∀ r ∈ persistNewRoutes db e assignments incl maxRoutes routeFor
        forceNameOf calcAt,
      r.emergencyId = e.id ∧ r.status = "activa" := by
  intro r hr
  simp only [persistNewRoutes] at hr
  rcases List.mem_append.1 hr with h | h
  · exact persistAssignmentsLoop_rows e.id calcAt _ [] [] (by simp) r h
  · cases incl with
    | true =>
      simp only [if_pos] at h
      exact persistDispatchLoop_rows routeFor forceNameOf e.id calcAt _ _ []
        (by simp) r h
    | false => simp at h

lemma persistAssignmentsLoop_spec (eid : ℕ) (c : ℚ) :
    ∀ (xs : List Assignment) (ids : List String) (acc : List CalculatedRoute),
      (xs.map Assignment.resourceId).Nodup →
      (∀ a ∈ xs, ∃ rid, a.resourceId = some rid ∧ rid ≠ "" ∧ rid ∉ ids) →
      (persistAssignmentsLoop eid c xs ids acc).2.length =
        acc.length + xs.length ∧
      (persistAssignmentsLoop eid c xs ids acc).1 =
        ids ++ xs.filterMap Assignment.resourceId := by
  intro xs
  induction xs with
  | nil =>
    intro ids acc _ _
    exact ⟨rfl, by simp [persistAssignmentsLoop]⟩
  | cons a t ih =>
    intro ids acc hnd hfresh
    obtain ⟨rid, hrid, hne, hnin⟩ := hfresh a (List.mem_cons_self a t)
    have hcond : ¬(rid = "" ∨ rid ∈ ids) := by
      push_neg
      exact ⟨hne, hnin⟩
    have hnd0 : a.resourceId ∉ t.map Assignment.resourceId ∧
        (t.map Assignment.resourceId).Nodup := by
      simpa [List.nodup_cons] using hnd
    have hfresh' : ∀ b ∈ t, ∃ r2, b.resourceId = some r2 ∧ r2 ≠ "" ∧
        r2 ∉ ids ++ [rid] := by
      intro b hb
      obtain ⟨r2, hr2, hne2, hnin2⟩ := hfresh b (List.mem_cons_of_mem _ hb)
      refine ⟨r2, hr2, hne2, ?_⟩
      intro hmem
      rcases List.mem_append.1 hmem with h2 | h2
      · exact hnin2 h2
      · rcases List.mem_singleton.1 h2 with rfl
        exact hnd0.1 (hrid ▸ hr2 ▸ List.mem_map_of_mem Assignment.resourceId hb)
    have hrec := ih (ids ++ [rid])
      (acc ++
        [{ emergencyId := eid, resourceId := rid, resourceType := a.resourceName,
           distanceKm := a.distanceKm, estimatedTimeMinutes := a.estimatedArrival,
           priorityScore := a.priorityScore, routeGeometry := a.geometry,
           status := "activa", calculatedAt := c, completedAt := none }])
      hnd0.2 hfresh'
    simp only [persistAssignmentsLoop, hrid, if_neg hcond]
    constructor
    · rw [hrec.1]
      simp only [List.length_append, List.length_cons, List.length_nil]
      omega
    · rw [hrec.2]
      simp [List.filterMap_cons, hrid]

lemma persistDispatchLoop_covered (routeFor : Vehicle → RouteInfo)
    (forceNameOf : ℕ → String) (eid : ℕ) (c : ℚ) :
    ∀ (vs : List (Option Vehicle)) (ids : List String)
      (acc : List CalculatedRoute),
      (∀ v : Vehicle, some v ∈ vs → v.currentLat ≠ none → v.currentLon ≠ none →
        ("vehicle_" ++ toString v.id) ∈ ids) →
      persistDispatchLoop routeFor forceNameOf eid c vs ids acc = acc := by
  intro vs
  induction vs with
  | nil => intro ids acc _; rfl
  | cons ov t ih =>
    intro ids acc hcov
    cases ov with
    | none =>
      simp only [persistDispatchLoop]
      exact ih ids acc (fun v hv => hcov v (List.mem_cons_of_mem _ hv))
    | some v =>
      simp only [persistDispatchLoop]
      by_cases hl : v.currentLat = none ∨ v.currentLon = none
      · rw [if_pos hl]
        exact ih ids acc (fun v2 hv2 => hcov v2 (List.mem_cons_of_mem _ hv2))
      · rw [if_neg hl]
        push_neg at hl
        rw [if_pos (hcov v (List.mem_cons_self _ _) hl.1 hl.2)]
        exact ih ids acc (fun v2 hv2 => hcov v2 (List.mem_cons_of_mem _ hv2))

/-- C4 (amended): re-running the planner replaces the incident's active
routes as a set — afterwards the active rows are exactly the newly
inserted ones, with no stale row remaining — and the count of active
routes equals the planner output size provided every assignment carries
a distinct non-empty resource id, the output fits in `max_routes`, and
every located dispatch vehicle is already covered by an assignment
(otherwise skipped duplicates shrink the count and dispatch-coverage
rows grow it). -/
theorem persistReplacesActiveRoutes (db : DB) (e : Emergency)
    (assignments : List Assignment) (includeDispatches : Bool)
    (maxRoutes : ℕ) (routeFor : Vehicle → RouteInfo)
    (forceNameOf : ℕ → String) (calcAt : ℚ)
    (hlat : pyTruthyF e.locationLat = true)
    (hlon : pyTruthyF e.locationLon = true) :
    activeRoutesFor (persistRoutesForEmergency db e assignments
        includeDispatches maxRoutes routeFor forceNameOf calcAt) e.id =
      persistNewRoutes db e assignments includeDispatches maxRoutes
        routeFor forceNameOf calcAt ∧
    ((assignments.map Assignment.resourceId).Nodup →
      (∀ a ∈ assignments, ∃ rid, a.resourceId = some rid ∧ rid ≠ "") →
      assignments.length ≤ maxRoutes →
      (∀ v : Vehicle, some v ∈ dispatchVehicles db e.id →
        v.currentLat ≠ none → v.currentLon ≠ none →
        some ("vehicle_" ++ toString v.id) ∈
          assignments.map Assignment.resourceId) →
      (activeRoutesFor (persistRoutesForEmergency db e assignments
          includeDispatches maxRoutes routeFor forceNameOf calcAt)
          e.id).length = assignments.length) := by
  have hmain : activeRoutesFor (persistRoutesForEmergency db e assignments
      includeDispatches maxRoutes routeFor forceNameOf calcAt) e.id =
      persistNewRoutes db e assignments includeDispatches maxRoutes
        routeFor forceNameOf calcAt := by
    rw [persistRoutesForEmergency, if_neg (by simp [hlat, hlon])]
    simp only [activeRoutesFor, List.filter_append]
    have h1 : (db.routes.filter
        (fun r => ¬(r.emergencyId = e.id ∧ r.status = "activa"))).filter
          (fun r => r.emergencyId = e.id ∧ r.status = "activa") = [] := by
      refine List.filter_eq_nil_iff.2 ?_
      intro r hr
      have hno := List.of_mem_filter hr
      simp at hno ⊢
      tauto
    have h2 : (persistNewRoutes db e assignments includeDispatches maxRoutes
        routeFor forceNameOf calcAt).filter
          (fun r => r.emergencyId = e.id ∧ r.status = "activa") =
        persistNewRoutes db e assignments includeDispatches maxRoutes
          routeFor forceNameOf calcAt := by
      refine List.filter_eq_self.2 ?_
      intro r hr
      have := persistNewRoutes_rows db e assignments includeDispatches
        maxRoutes routeFor forceNameOf calcAt r hr
      simpa using this
    rw [h1, h2, List.nil_append]
  refine ⟨hmain, ?_⟩
  intro hnd hids hlen hcov
  rw [hmain]
  have htake : assignments.take maxRoutes = assignments :=
    List.take_of_length_le hlen
  have hspec := persistAssignmentsLoop_spec e.id calcAt assignments [] []
    hnd (by
      intro a ha
      obtain ⟨rid, hrid, hne⟩ := hids a ha
      exact ⟨rid, hrid, hne, by simp⟩)
  have hstep2 : ∀ hincl : includeDispatches = true,
      persistDispatchLoop routeFor forceNameOf e.id calcAt
        (dispatchVehicles db e.id)
        (persistAssignmentsLoop e.id calcAt assignments [] []).1 [] = [] := by
    intro _
    refine persistDispatchLoop_covered routeFor forceNameOf e.id calcAt _ _ []
      ?_
    intro v hv hla hlo
    have hmem := hcov v hv hla hlo
    rw [hspec.2]
    obtain ⟨a, ha, hfa⟩ := List.mem_map.1 hmem
    simp only [List.nil_append]
    exact List.mem_filterMap.2 ⟨a, ha, hfa⟩
  simp only [persistNewRoutes, htake]
  cases includeDispatches with
  | true =>
    rw [if_pos rfl, hstep2 rfl, List.append_nil, hspec.1]
    simp
  | false =>
    rw [if_neg (by simp), List.append_nil, hspec.1]
    simp

def cexPersistEmergency : Emergency :=
  { sampleEmergency with id := 11, code := "verde", ondaVerde := false }

def cexPersistDB : DB :=
  { emergencies := [cexPersistEmergency], vehicles := [], agents := [],
    dispatches := [], routes := [] }

def dupAssignment : Assignment :=
  { resourceId := some "vehicle_9", resourceName := "Patrulla",
    distanceKm := 2, estimatedArrival := 3, priorityScore := 1,
    geometry := none }

def trivialRouteFor : Vehicle → RouteInfo :=
  fun _ => { provider := "FallbackGrid", geometry := none, distance := none,
             duration := none }

def trivialForceName : ℕ → String := fun _ => "Policía"

/-- C4 counterexample: a planner output with a repeated resource id
persists only one row, so the count of active routes (1) differs from
the planner output size (2) — the claim's count equality fails as
stated. -/
theorem persistCountMismatch_cex :
    (activeRoutesFor (persistRoutesForEmergency cexPersistDB
        cexPersistEmergency [dupAssignment, dupAssignment] true 12
        trivialRouteFor trivialForceName 5) 11).length = 1 ∧
    [dupAssignment, dupAssignment].length = 2 ∧ (1 : ℕ) ≠ 2 := by
  refine ⟨by decide, rfl, by decide⟩

def staleActiveRoute : CalculatedRoute :=
  { emergencyId := 11, resourceId := "vehicle_old", resourceType := "Vieja",
    distanceKm := 9, estimatedTimeMinutes := 9, priorityScore := 9,
    routeGeometry := none, status := "activa", calculatedAt := 0,
    completedAt := none }

/-- C4 witness: with one stale active row in place and one well-formed
assignment, re-planning leaves exactly one active route. -/
theorem persistReplacesActiveRoutes_witness :
    (activeRoutesFor (persistRoutesForEmergency
        { cexPersistDB with routes := [staleActiveRoute] } cexPersistEmergency
        [dupAssignment] true 12 trivialRouteFor trivialForceName 5)
        11).length = 1 := by
  have h := persistReplacesActiveRoutes
    { cexPersistDB with routes := [staleActiveRoute] } cexPersistEmergency
    [dupAssignment] true 12 trivialRouteFor trivialForceName 5
    (by decide) (by decide)
  have hres := h.2 (by decide)
    (by
      intro a ha
      rcases List.mem_singleton.1 ha with rfl
      exact ⟨"vehicle_9", rfl, by decide⟩)
    (by decide)
    (by
      intro v hv _ _
      simp [dispatchVehicles, cexPersistDB] at hv)
  simpa using hres

lemma gridDedupStep_ne_nil (l : List (ℚ × ℚ)) (p : ℚ × ℚ) :
    gridDedupStep l p ≠ [] := by
  unfold gridDedupStep
  cases hq : l.getLast? with
  | none => simp
  | some q =>
    dsimp only
    have hl : l ≠ [] := by
      intro h
      subst h
      simp at hq
    split_ifs
    · simp
    · exact hl

lemma foldl_gridDedupStep_ne_nil :
    ∀ (pts : List (ℚ × ℚ)) (l : List (ℚ × ℚ)), l ≠ [] →
      pts.foldl gridDedupStep l ≠ [] := by
  intro pts
  induction pts with
  | nil => intro l hl; exact hl
  | cons p t ih =>
    intro l hl
    exact ih (gridDedupStep l p) (gridDedupStep_ne_nil l p)

lemma generateGridPath_ne_nil (s e : ℚ × ℚ) : generateGridPath s e ≠ [] := by
  simp only [generateGridPath]
  rw [List.foldl_cons]
  exact foldl_gridDedupStep_ne_nil _ _ (gridDedupStep_ne_nil _ _)

def offlineRoutingConfig : RoutingConfig :=
  { mapboxKey := false, openrouteKey := false, graphhopperKey := false,
    offline := true, orsInBackoff := false }

def emptyRoutingNet : RoutingNet :=
  { mapbox := none, ors := none, osrmHosts := [none, none],
    graphhopper := none }

def cexClosure : StreetClosure :=
  { id := 1, name := "corte", lat := 1, lon := 2, closureType := "total",
    geometry := none, isActive := true, startDate := 0, endDate := none }

def unitCongestion : Option Geometry → ℚ := fun _ => 1

/-- C5: with routing offline (or every provider failing) and no currently
active closure near the route, `get_best_route` returns the deterministic
grid fallback — but with an active `StreetClosure` within 50 m of the
route it raises `AttributeError`, because the closure-avoidance branch
unconditionally calls `RouteOptimizer._generate_alternative_grid_path`,
a method that is not defined anywhere in the repository. -/
theorem getBestRouteClosureCrash :
    getBestRoute zeroDist offlineRoutingConfig emptyRoutingNet none
        [cexClosure] 10 unitCongestion (1, 2) (3, 4) =
      .error "AttributeError: RouteOptimizer has no attribute _generate_alternative_grid_path" ∧
    getBestRoute zeroDist offlineRoutingConfig emptyRoutingNet none
        [] 10 unitCongestion (1, 2) (3, 4) =
      .ok (fallbackGridRoute zeroDist (1, 2) (3, 4)) := by
  constructor
  · have hact : getActiveStreetClosures [cexClosure] 10 = [cexClosure] := by
      simp [getActiveStreetClosures, cexClosure]
    have hne : (generateGridPath (1, 2) (3, 4)).map
        (fun c => ((c.2 : ℚ), (c.1 : ℚ))) ≠ [] := by
      intro h
      exact generateGridPath_ne_nil (1, 2) (3, 4) (List.map_eq_nil_iff.1 h)
    obtain ⟨x, hx⟩ := List.exists_mem_of_ne_nil _ hne
    have hint : routeIntersectsClosure zeroDist
        (fallbackGridRoute zeroDist (1, 2) (3, 4)).geometry cexClosure = true := by
      simp only [fallbackGridRoute, routeIntersectsClosure]
      rw [if_neg (by decide)]
      rw [if_neg (by norm_num [cexClosure])]
      refine List.any_eq_true.2 ⟨x, hx, ?_⟩
      simp [zeroDist]
    simp only [getBestRoute, attemptMapbox, getRouteMapbox, attemptOpenroute,
      getRouteOpenroute, attemptOsrm, getRouteOsrm, firstValidOsrm,
      attemptGraphhopper, getRouteGraphhopper, offlineRoutingConfig,
      emptyRoutingNet, hact]
    simp [adjustRouteForClosures, hint]
    rfl
  · have hact : getActiveStreetClosures [] 10 = [] := rfl
    simp only [getBestRoute, attemptMapbox, getRouteMapbox, attemptOpenroute,
      getRouteOpenroute, attemptOsrm, getRouteOsrm, firstValidOsrm,
      attemptGraphhopper, getRouteGraphhopper, offlineRoutingConfig,
      emptyRoutingNet, hact]
    have hdur : (fallbackGridRoute zeroDist (1, 2) (3, 4)).duration = some 0 := by
      simp [fallbackGridRoute, zeroDist]
    have hid : adjustDurationForTraffic unitCongestion
        (fallbackGridRoute zeroDist (1, 2) (3, 4)) =
        fallbackGridRoute zeroDist (1, 2) (3, 4) := by
      unfold adjustDurationForTraffic
      rw [hdur]
      simp [pyTruthyF]
    simp only [adjustRouteForClosures, if_true]
    simp [Except.map, hid]
